import Mathlib

/-!
Shallow embedding of the channel-program construction engine of the ECKD
DASD block driver (`dasd_eckd.c`).  Machine `unsigned int` values are
modelled as `Nat`; in the modelled domain (device geometry, block sizes up
to 4096, record counts per track) all intermediate values stay far below
`2^32`, so no wrap-around arithmetic is introduced.
-/

namespace DasdEckd

/-! ### Errno values (standard Linux error numbers) -/

def ENOSYS : Int := 38
def EACCES : Int := 13
def EAGAIN : Int := 11
def EINVAL : Int := 22
def EBUSY : Int := 16
def EMEDIUMTYPE : Int := 124

/-! ### ECKD channel command codes (`dasd_eckd.h`)

The numeric values are the ECKD command set opcodes.  The driver relies
on the KD variants differing from the plain variants by the single bit
`0x08` ("So don't wonder about code like `ccw->cmd_code |= 0x8`"). -/

def DASD_ECKD_CCW_WRITE : Nat := 0x05
def DASD_ECKD_CCW_READ : Nat := 0x06
def DASD_ECKD_CCW_WRITE_HOME_ADDRESS : Nat := 0x09
def DASD_ECKD_CCW_READ_HOME_ADDRESS : Nat := 0x0a
def DASD_ECKD_CCW_WRITE_KD : Nat := 0x0d
def DASD_ECKD_CCW_READ_KD : Nat := 0x0e
def DASD_ECKD_CCW_ERASE : Nat := 0x11
def DASD_ECKD_CCW_READ_COUNT : Nat := 0x12
def DASD_ECKD_CCW_WRITE_RECORD_ZERO : Nat := 0x15
def DASD_ECKD_CCW_READ_RECORD_ZERO : Nat := 0x16
def DASD_ECKD_CCW_WRITE_CKD : Nat := 0x1d
def DASD_ECKD_CCW_READ_CKD : Nat := 0x1e
def DASD_ECKD_CCW_LOCATE_RECORD : Nat := 0x47
def DASD_ECKD_CCW_DEFINE_EXTENT : Nat := 0x63
def DASD_ECKD_CCW_WRITE_MT : Nat := 0x85
def DASD_ECKD_CCW_READ_MT : Nat := 0x86
def DASD_ECKD_CCW_WRITE_KD_MT : Nat := 0x8d
def DASD_ECKD_CCW_READ_KD_MT : Nat := 0x8e
def DASD_ECKD_CCW_WRITE_CKD_MT : Nat := 0x9d
def DASD_ECKD_CCW_READ_CKD_MT : Nat := 0x9e
def DASD_ECKD_CCW_PFX : Nat := 0xE7

/-- Cache/operation attribute codes from the dasd user interface header.
Only their distinctness is relied upon by the driver logic modelled
here. -/
def DASD_NORMAL_CACHE : Nat := 0x0
def DASD_BYPASS_CACHE : Nat := 0x1
def DASD_SEQ_PRESTAGE : Nat := 0x2
def DASD_SEQ_ACCESS : Nat := 0x3

/-- Request status codes from `dasd_int.h`; only distinctness matters. -/
def DASD_CQR_FILLED : Int := 0
def DASD_CQR_DONE : Int := 1
def DASD_CQR_ERROR : Int := 3

/-! ### Geometry calculator (`recs_per_track` and helpers) -/

def sizes_trk0 : List Nat := [28, 148, 84]

def LABEL_SIZE : Nat := 140

def round_up_multiple (no mult : Nat) : Nat :=
  let rem := no % mult
  if rem ≠ 0 then no - rem + mult else no

def ceil_quot (d1 d2 : Nat) : Nat :=
  (d1 + (d2 - 1)) / d2

/-- Device characteristics block (`struct dasd_eckd_characteristics`),
restricted to the fields the modelled code reads. -/
structure EckdCharacteristics where
  dev_type : Nat
  cu_type : Nat
  no_cyl : Nat
  trk_per_cyl : Nat
  facilities_XRC_supported : Bool
  deriving Repr, DecidableEq

def recs_per_track (rdc : EckdCharacteristics) (kl dl : Nat) : Nat :=
  if rdc.dev_type = 0x3380 then
    if kl ≠ 0 then
      1499 / (15 + 7 + ceil_quot (kl + 12) 32 + ceil_quot (dl + 12) 32)
    else
      1499 / (15 + ceil_quot (dl + 12) 32)
  else if rdc.dev_type = 0x3390 then
    let dn := ceil_quot (dl + 6) 232 + 1
    if kl ≠ 0 then
      let kn := ceil_quot (kl + 6) 232 + 1
      1729 / (10 + 9 + ceil_quot (kl + 6 * kn) 34 + 9 + ceil_quot (dl + 6 * dn) 34)
    else
      1729 / (10 + 9 + ceil_quot (dl + 6 * dn) 34)
  else if rdc.dev_type = 0x9345 then
    let dn := ceil_quot (dl + 6) 232 + 1
    if kl ≠ 0 then
      let kn := ceil_quot (kl + 6) 232 + 1
      1420 / (18 + 7 + ceil_quot (kl + 6 * kn) 34 + ceil_quot (dl + 6 * dn) 34)
    else
      1420 / (18 + 7 + ceil_quot (dl + 6 * dn) 34)
  else 0

/-! ### Record layout classifier (`dasd_eckd_cdl_special`, `dasd_eckd_cdl_reclen`) -/

def dasd_eckd_cdl_special (blk_per_trk recid : Nat) : Bool :=
  if recid < 3 then true
  else if recid < blk_per_trk then false
  else if recid < 2 * blk_per_trk then true
  else false

def dasd_eckd_cdl_reclen (recid : Nat) : Nat :=
  if recid < 3 then sizes_trk0.getD recid 0
  else LABEL_SIZE

/-- The transfer length `dasd_eckd_build_cp` uses for record `recid`:
`count = blksize` unless the volume uses the compatible disk layout and
`recid` is one of the special records below the `2*blk_per_trk`
boundary, in which case the fixed special length is used. -/
def recCount (uses_cdl : Bool) (blksize blk_per_trk recid : Nat) : Nat :=
  if uses_cdl ∧ recid < 2 * blk_per_trk ∧ dasd_eckd_cdl_special blk_per_trk recid then
    dasd_eckd_cdl_reclen recid
  else blksize

/-! ### Data model for the command descriptor builder -/

/-- One probed record header (`struct eckd_count`). -/
structure EckdCount where
  cyl : Nat := 0
  head : Nat := 0
  record : Nat := 0
  kl : Nat := 0
  dl : Nat := 0
  deriving DecidableEq

/-- Per-device private data (`struct dasd_eckd_private`), restricted to
the fields the modelled code reads.  `features_pfx` models bit 0 of
`features.feature[8]` (prefix command available); `count` is the
in-flight request counter used by `dasd_eckd_build_alias_cp`;
`count_area` holds the five record headers read by the analysis channel
program (four from track 0, one from track 2). -/
structure DasdEckdPrivate where
  rdc_data : EckdCharacteristics
  uses_cdl : Bool
  attrib_operation : Nat
  attrib_nr_cyl : Nat
  features_pfx : Bool
  count : Nat
  init_cqr_status : Int
  count_area : List EckdCount
  deriving DecidableEq

/-- A channel command word (`struct ccw1`).  The flag byte is modelled
by individual booleans; the command-chaining flag (set on every CCW but
the last one of a program) is uniform and omitted.  `cda` holds the
memory address the command transfers from/to; for a CCW with `flagIDA`
set the hardware-level `cda` points at an indirection list that resolves
to this address. -/
structure Ccw1 where
  cmd_code : Nat := 0
  flagSLI : Bool := false
  flagIDA : Bool := false
  count : Nat := 0
  cda : Nat := 0
  deriving DecidableEq

/-- Byte size of `struct DE_eckd_data`; the exact value is immaterial to
the verified properties (it only feeds `ccw->count`). -/
def sizeof_DE_eckd_data : Nat := 32
def sizeof_LO_eckd_data : Nat := 16
def sizeof_PFX_eckd_data : Nat := 64
def sizeof_eckd_count : Nat := 8
def sizeof_ulong : Nat := 8

/-- Define-extent payload (`struct DE_eckd_data`).  `ep_sys_time` is the
optional synchronized timestamp; `none` models "not written". -/
structure DE_eckd_data where
  mask_perm : Nat := 0
  mask_auth : Nat := 0
  attributes_mode : Nat := 0
  attributes_operation : Nat := 0
  ga_extended : Nat := 0
  beg_ext_cyl : Nat := 0
  beg_ext_head : Nat := 0
  end_ext_cyl : Nat := 0
  end_ext_head : Nat := 0
  ep_sys_time : Option Nat := none
  deriving DecidableEq

/-- Locate-record payload (`struct LO_eckd_data`). -/
structure LO_eckd_data where
  operation_orientation : Nat := 0
  operation_operation : Nat := 0
  auxiliary_last_bytes_used : Bool := false
  sector : Nat := 0
  count : Nat := 0
  length : Nat := 0
  seek_cyl : Nat := 0
  seek_head : Nat := 0
  search_cyl : Nat := 0
  search_head : Nat := 0
  search_record : Nat := 0
  deriving DecidableEq

/-- Prefix payload (`struct PFX_eckd_data`): the define-extent data plus
validity bits. -/
structure PFX_eckd_data where
  format : Nat := 0
  validity_verify_base : Bool := false
  validity_hyper_pav : Bool := false
  validity_time_stamp : Bool := false
  define_extend : DE_eckd_data := {}
  deriving DecidableEq

/-- Command families as grouped by the `switch (cmd)` of
`define_extent` / `prefix`. -/
def readCmds : List Nat :=
  [DASD_ECKD_CCW_READ_HOME_ADDRESS, DASD_ECKD_CCW_READ_RECORD_ZERO,
   DASD_ECKD_CCW_READ, DASD_ECKD_CCW_READ_MT,
   DASD_ECKD_CCW_READ_CKD, DASD_ECKD_CCW_READ_CKD_MT,
   DASD_ECKD_CCW_READ_KD, DASD_ECKD_CCW_READ_KD_MT,
   DASD_ECKD_CCW_READ_COUNT]

def writeCmds : List Nat :=
  [DASD_ECKD_CCW_WRITE, DASD_ECKD_CCW_WRITE_MT,
   DASD_ECKD_CCW_WRITE_KD, DASD_ECKD_CCW_WRITE_KD_MT]

def writeCkdCmds : List Nat :=
  [DASD_ECKD_CCW_WRITE_CKD, DASD_ECKD_CCW_WRITE_CKD_MT]

def eraseCmds : List Nat :=
  [DASD_ECKD_CCW_ERASE, DASD_ECKD_CCW_WRITE_HOME_ADDRESS,
   DASD_ECKD_CCW_WRITE_RECORD_ZERO]

/-- Result of the external `get_sync_clock` facility (spec section 6:
`Clock.synchronized_value() -> Result<SyncTimestamp, ...>`): `.ok t` is a
synchronized timestamp, `.error rc` the negative errno it failed with
(`-EOPNOTSUPP`/`-ENOSYS` or `-EACCES` when the clock source is
unavailable, `-EAGAIN` when the clock is not yet synchronized). -/
abbrev SyncClock := Except Int Nat

/-- `check_XRC`: switch on the system time stamp for XRC-capable
controllers.  Returns the resulting rc together with the updated CCW and
define-extent data. -/
def check_XRC (clock : SyncClock) (de_ccw : Ccw1) (data : DE_eckd_data)
    (priv : DasdEckdPrivate) : Int × Ccw1 × DE_eckd_data :=
  if ¬ priv.rdc_data.facilities_XRC_supported then (0, de_ccw, data)
  else
    -- switch on 'Time Stamp Valid' and 'Extended Parameter'
    let data := { data with ga_extended := data.ga_extended ||| 0x08 }
    let data := { data with ga_extended := data.ga_extended ||| 0x02 }
    let (rc, data) :=
      match clock with
      | .ok t => ((0 : Int), { data with ep_sys_time := some t })
      | .error e => (e, data)
    -- Ignore return code if sync clock is switched off.
    let rc := if rc = -ENOSYS ∨ rc = -EACCES then 0 else rc
    let de_ccw := { de_ccw with count := sizeof_DE_eckd_data, flagSLI := true }
    (rc, de_ccw, data)

/-- The `switch (cmd)` statement of `define_extent`: seed the
permission mask and operation attribute from the command family, and
run the XRC timestamp handling for the write families. -/
def define_extent_switch (clock : SyncClock) (cmd : Nat)
    (priv : DasdEckdPrivate) : Int × Ccw1 × DE_eckd_data :=
  let ccw : Ccw1 := { cmd_code := DASD_ECKD_CCW_DEFINE_EXTENT, count := 16 }
  let data : DE_eckd_data := {}
  if readCmds.contains cmd then
    ((0 : Int), ccw,
     { data with mask_perm := 0x1,
                 attributes_operation := priv.attrib_operation })
  else if writeCmds.contains cmd then
    check_XRC clock ccw
      { data with mask_perm := 0x02,
                  attributes_operation := priv.attrib_operation } priv
  else if writeCkdCmds.contains cmd then
    check_XRC clock ccw
      { data with attributes_operation := DASD_BYPASS_CACHE } priv
  else if eraseCmds.contains cmd then
    check_XRC clock ccw
      { data with mask_perm := 0x3, mask_auth := 0x1,
                  attributes_operation := DASD_BYPASS_CACHE } priv
  else
    -- unknown opcode: logged, payload keeps its zeroed defaults
    ((0 : Int), ccw, data)

/-- `define_extent`: build the define-extent CCW and payload for the
track range `[trk, totrk]` and command `cmd`. -/
def define_extent (clock : SyncClock) (trk totrk cmd : Nat)
    (priv : DasdEckdPrivate) : Int × Ccw1 × DE_eckd_data :=
  let (rc, ccw, data) := define_extent_switch clock cmd priv
  let data := { data with attributes_mode := 0x3 }   -- ECKD
  let data :=
    if (priv.rdc_data.cu_type = 0x2105 ∨ priv.rdc_data.cu_type = 0x2107 ∨
        priv.rdc_data.cu_type = 0x1750) ∧
       ¬(priv.uses_cdl ∧ trk < 2) then
      { data with ga_extended := data.ga_extended ||| 0x40 }  -- Regular Data Format Mode
    else data
  let geo_cyl := priv.rdc_data.no_cyl
  let geo_head := priv.rdc_data.trk_per_cyl
  let beg_cyl := trk / geo_head
  let beg_head := trk % geo_head
  let end_cyl := totrk / geo_head
  let end_head := totrk % geo_head
  -- check for sequential prestage - enhance cylinder range
  let end_cyl :=
    if data.attributes_operation = DASD_SEQ_PRESTAGE ∨
       data.attributes_operation = DASD_SEQ_ACCESS then
      if end_cyl + priv.attrib_nr_cyl < geo_cyl then end_cyl + priv.attrib_nr_cyl
      else geo_cyl - 1
    else end_cyl
  (rc, ccw,
   { data with beg_ext_cyl := beg_cyl, beg_ext_head := beg_head,
               end_ext_cyl := end_cyl, end_ext_head := end_head })

/-- `check_XRC_on_prefix`: XRC timestamp handling for the prefix
command. -/
def check_XRC_on_prefix (clock : SyncClock) (pfxdata : PFX_eckd_data)
    (priv : DasdEckdPrivate) : Int × PFX_eckd_data :=
  if ¬ priv.rdc_data.facilities_XRC_supported then (0, pfxdata)
  else
    let de := pfxdata.define_extend
    let de := { de with ga_extended := de.ga_extended ||| 0x08 }
    let de := { de with ga_extended := de.ga_extended ||| 0x02 }
    let pfxdata := { pfxdata with define_extend := de, validity_time_stamp := true }
    let (rc, pfxdata) :=
      match clock with
      | .ok t =>
        ((0 : Int),
         { pfxdata with define_extend := { pfxdata.define_extend with ep_sys_time := some t } })
      | .error e => (e, pfxdata)
    let rc := if rc = -ENOSYS ∨ rc = -EACCES then 0 else rc
    (rc, pfxdata)

/-- The `switch (cmd)` statement of `prefix` (the counterpart of
`define_extent_switch` for the prefix command). -/
def prefix_switch (clock : SyncClock) (cmd : Nat)
    (priv : DasdEckdPrivate) : Int × PFX_eckd_data :=
  let pfxdata : PFX_eckd_data := {}
  if readCmds.contains cmd then
    let de := { pfxdata.define_extend with
                mask_perm := 0x1, attributes_operation := priv.attrib_operation }
    ((0 : Int), { pfxdata with define_extend := de })
  else if writeCmds.contains cmd then
    let de := { pfxdata.define_extend with
                mask_perm := 0x02, attributes_operation := priv.attrib_operation }
    check_XRC_on_prefix clock { pfxdata with define_extend := de } priv
  else if writeCkdCmds.contains cmd then
    let de := { pfxdata.define_extend with attributes_operation := DASD_BYPASS_CACHE }
    check_XRC_on_prefix clock { pfxdata with define_extend := de } priv
  else if eraseCmds.contains cmd then
    let de := { pfxdata.define_extend with
                mask_perm := 0x3, mask_auth := 0x1,
                attributes_operation := DASD_BYPASS_CACHE }
    check_XRC_on_prefix clock { pfxdata with define_extend := de } priv
  else ((0 : Int), pfxdata)

/-- `prefix`: build the PFX CCW and payload.  The modelled driver state
does not distinguish base and start device (alias routing is an external
collaborator), so a single `priv` stands for both `basepriv` and
`startpriv` with a base-device unit address. -/
def prefixCcw (clock : SyncClock) (trk totrk cmd : Nat)
    (priv : DasdEckdPrivate) : Int × Ccw1 × PFX_eckd_data :=
  let ccw : Ccw1 := { cmd_code := DASD_ECKD_CCW_PFX, count := sizeof_PFX_eckd_data }
  let (rc, pfxdata) := prefix_switch clock cmd priv
  let de := { pfxdata.define_extend with attributes_mode := 0x3 }
  let de :=
    if (priv.rdc_data.cu_type = 0x2105 ∨ priv.rdc_data.cu_type = 0x2107 ∨
        priv.rdc_data.cu_type = 0x1750) ∧
       ¬(priv.uses_cdl ∧ trk < 2) then
      { de with ga_extended := de.ga_extended ||| 0x40 }
    else de
  let geo_cyl := priv.rdc_data.no_cyl
  let geo_head := priv.rdc_data.trk_per_cyl
  let beg_cyl := trk / geo_head
  let beg_head := trk % geo_head
  let end_cyl := totrk / geo_head
  let end_head := totrk % geo_head
  let end_cyl :=
    if de.attributes_operation = DASD_SEQ_PRESTAGE ∨
       de.attributes_operation = DASD_SEQ_ACCESS then
      if end_cyl + priv.attrib_nr_cyl < geo_cyl then end_cyl + priv.attrib_nr_cyl
      else geo_cyl - 1
    else end_cyl
  (rc, ccw,
   { pfxdata with define_extend :=
       { de with beg_ext_cyl := beg_cyl, beg_ext_head := beg_head,
                 end_ext_cyl := end_cyl, end_ext_head := end_head } })

/-- `locate_record`: build the locate-record CCW and payload. -/
def locate_record (trk rec_on_trk no_rec cmd reclen : Nat)
    (priv : DasdEckdPrivate) : Ccw1 × LO_eckd_data :=
  let ccw : Ccw1 := { cmd_code := DASD_ECKD_CCW_LOCATE_RECORD, count := 16 }
  let data : LO_eckd_data := {}
  let sector :=
    if rec_on_trk ≠ 0 then
      if priv.rdc_data.dev_type = 0x3390 then
        let dn := ceil_quot (reclen + 6) 232
        let d := 9 + ceil_quot (reclen + 6 * (dn + 1)) 34
        (49 + (rec_on_trk - 1) * (10 + d)) / 8
      else if priv.rdc_data.dev_type = 0x3380 then
        let d := 7 + ceil_quot (reclen + 12) 32
        (39 + (rec_on_trk - 1) * (8 + d)) / 7
      else 0
    else 0
  let data := { data with sector := sector, count := no_rec }
  let data :=
    if cmd = DASD_ECKD_CCW_WRITE_HOME_ADDRESS then
      { data with operation_orientation := 0x3, operation_operation := 0x03 }
    else if cmd = DASD_ECKD_CCW_READ_HOME_ADDRESS then
      { data with operation_orientation := 0x3, operation_operation := 0x16 }
    else if cmd = DASD_ECKD_CCW_WRITE_RECORD_ZERO then
      { data with operation_orientation := 0x1, operation_operation := 0x03,
                  count := data.count + 1 }
    else if cmd = DASD_ECKD_CCW_READ_RECORD_ZERO then
      { data with operation_orientation := 0x3, operation_operation := 0x16,
                  count := data.count + 1 }
    else if writeCmds.contains cmd then
      { data with auxiliary_last_bytes_used := true, length := reclen,
                  operation_operation := 0x01 }
    else if writeCkdCmds.contains cmd then
      { data with auxiliary_last_bytes_used := true, length := reclen,
                  operation_operation := 0x03 }
    else if cmd = DASD_ECKD_CCW_READ ∨ cmd = DASD_ECKD_CCW_READ_MT ∨
            cmd = DASD_ECKD_CCW_READ_KD ∨ cmd = DASD_ECKD_CCW_READ_KD_MT then
      { data with auxiliary_last_bytes_used := true, length := reclen,
                  operation_operation := 0x06 }
    else if cmd = DASD_ECKD_CCW_READ_CKD ∨ cmd = DASD_ECKD_CCW_READ_CKD_MT then
      { data with auxiliary_last_bytes_used := true, length := reclen,
                  operation_operation := 0x16 }
    else if cmd = DASD_ECKD_CCW_READ_COUNT then
      { data with operation_operation := 0x06 }
    else if cmd = DASD_ECKD_CCW_ERASE then
      { data with length := reclen, auxiliary_last_bytes_used := true,
                  operation_operation := 0x0b }
    else data  -- unknown opcode: logged
  (ccw,
   { data with seek_cyl := trk / priv.rdc_data.trk_per_cyl,
               search_cyl := trk / priv.rdc_data.trk_per_cyl,
               seek_head := trk % priv.rdc_data.trk_per_cyl,
               search_head := trk % priv.rdc_data.trk_per_cyl,
               search_record := rec_on_trk })

/-! ### Scatter/gather mapper (`dasd_eckd_build_cp`) -/

/-- One memory segment of a block request (`struct bio_vec`):
`page_addr` models `page_address(bv->bv_page)`. -/
structure BioVec where
  page_addr : Nat
  bv_offset : Nat
  bv_len : Nat
  deriving DecidableEq

/-- A block-layer request (`struct request`), restricted to what
`dasd_eckd_build_cp` reads.  `write` is `rq_data_dir(req) == WRITE`. -/
structure Request where
  sector : Nat
  nr_sectors : Nat
  write : Bool
  segments : List BioVec
  deriving DecidableEq

/-- Volume state (`struct dasd_block`), restricted to the fields read
here.  `s2b_shift` is the number of bits shifting 512 to the block
size. -/
structure DasdBlock where
  bp_block : Nat
  s2b_shift : Nat
  deriving DecidableEq

/-- One element of a channel program.  The source stores a raw `ccw1`
array whose `cda` fields point at the payload structures in the
request's scratch area; the model pairs each CCW with its payload
instead. -/
inductive CPccw where
  | de (ccw : Ccw1) (data : DE_eckd_data)
  | pfx (ccw : Ccw1) (data : PFX_eckd_data)
  | lo (ccw : Ccw1) (data : LO_eckd_data)
  | dataTransfer (ccw : Ccw1)
  /-- a format CCW writing a record header (`struct eckd_count`) -/
  | wrEct (ccw : Ccw1) (ect : EckdCount)
  deriving DecidableEq

/-- Memory side effects performed while building a channel program. -/
inductive MemEvent where
  /-- `memset(dst, val, len)` -/
  | fill (dst : Nat) (val : Nat) (len : Nat)
  /-- `memcpy(dst, src, len)` into a page-cache copy buffer -/
  | copyIn (dst : Nat) (src : Nat) (len : Nat)
  deriving DecidableEq

/-- The built request (`struct dasd_ccw_req`), restricted to the fields
the modelled builder fills in. -/
structure CqrModel where
  ccws : List CPccw
  cplength : Nat
  datasize : Nat
  retries : Nat
  expires : Nat
  status : Int
  deriving DecidableEq

def HZ : Nat := 100

deriving instance DecidableEq for Except

/-- Outcome of a build call: the result plus the memory side effects and
the number of request objects allocated and freed while building. -/
structure BuildOutcome where
  result : Except Int CqrModel
  events : List MemEvent
  allocated : Nat
  freed : Nat
  deriving DecidableEq

/-- `idal_is_needed(vaddr, length)` decides whether the memory at
`vaddr` can be addressed directly by a CCW data address or needs an
indirection list; it is a property of the platform's address map and is
taken as an oracle parameter. -/
abbrev IdalOracle := Nat → Nat → Bool

/-- The per-segment result of `kmem_cache_alloc(dasd_page_cache, ...)`,
indexed by the position of the segment in the request: `some copy` is a
successful pool allocation at address `copy`, `none` an exhausted
pool. -/
abbrev PageCacheAlloc := Nat → Option Nat

/-- The segment-validation loop of `dasd_eckd_build_cp`: reject any
segment whose length is not a whole number of blocks, and accumulate the
block count and the worst-case number of idal words (`cidaw`).  The
64-bit configuration is assumed, so the `cidaw` accumulation is
active. -/
def countSegments (ida : IdalOracle) (blksize s2b_shift : Nat) :
    List BioVec → Except Int (Nat × Nat)
  | [] => .ok (0, 0)
  | bv :: rest =>
    if bv.bv_len &&& (blksize - 1) ≠ 0 then
      .error (-EINVAL)  -- Eckd can only do full blocks.
    else
      match countSegments ida blksize s2b_shift rest with
      | .error e => .error e
      | .ok (count, cidaw) =>
        .ok (bv.bv_len >>> (s2b_shift + 9) + count,
             (if ida bv.page_addr bv.bv_len then bv.bv_len >>> (s2b_shift + 9) else 0)
               + cidaw)

/-- The per-block inner loop of `dasd_eckd_build_cp` (`for (off = 0; off
< bv->bv_len; off += blksize)`), with the block count `n = bv_len /
blksize` as structural fuel (the validation loop has already enforced
that `bv_len` is a multiple of `blksize`). -/
def cpBlocks (priv : DasdEckdPrivate) (ida : IdalOracle) (write : Bool)
    (cmd blksize blk_per_trk last_rec : Nat) :
    Nat → Nat → Nat → List CPccw × List MemEvent
  | 0, _recid, _dst => ([], [])
  | n + 1, recid, dst =>
    let trkid := recid / blk_per_trk
    let recoffs := recid % blk_per_trk
    -- Locate record for cdl special block ?
    let (rcmd, count, evs) :=
      if priv.uses_cdl ∧ recid < 2 * blk_per_trk ∧
         dasd_eckd_cdl_special blk_per_trk recid then
        let count := dasd_eckd_cdl_reclen recid
        (cmd ||| 0x8, count,
         if count < blksize ∧ write = false then
           [MemEvent.fill (dst + count) 0xe5 (blksize - count)]
         else [])
      else (cmd, blksize, [])
    let locs : List CPccw :=
      if priv.uses_cdl ∧ recid < 2 * blk_per_trk then
        let (ccw, lo) := locate_record trkid (recoffs + 1) 1 rcmd count priv
        [CPccw.lo ccw lo]
      else []
    -- Locate record for standard blocks ?
    let locs2 : List CPccw :=
      if priv.uses_cdl ∧ recid = 2 * blk_per_trk then
        let (ccw, lo) :=
          locate_record trkid (recoffs + 1) (last_rec - recid + 1) cmd count priv
        [CPccw.lo ccw lo]
      else []
    -- Read/write ccw.
    let dccw : CPccw :=
      CPccw.dataTransfer
        { cmd_code := rcmd, count := count, cda := dst,
          flagIDA := ida dst blksize }
    let (restCcws, restEvs) :=
      cpBlocks priv ida write cmd blksize blk_per_trk last_rec n (recid + 1)
        (dst + blksize)
    (locs ++ locs2 ++ dccw :: restCcws, evs ++ restEvs)

/-- The per-segment outer loop of `dasd_eckd_build_cp`
(`rq_for_each_segment`), including the optional substitution of a
page-cache copy buffer for the caller's memory. -/
def cpSegments (priv : DasdEckdPrivate) (ida : IdalOracle)
    (pageCacheOn : Bool) (pcAlloc : PageCacheAlloc) (write : Bool)
    (cmd blksize blk_per_trk last_rec : Nat) :
    List BioVec → Nat → Nat → List CPccw × List MemEvent
  | [], _segIdx, _recid => ([], [])
  | bv :: rest, segIdx, recid =>
    let dst0 := bv.page_addr + bv.bv_offset
    let (dst, evs0) :=
      if pageCacheOn then
        match pcAlloc segIdx with
        | some copy =>
          (copy + bv.bv_offset,
           if write then [MemEvent.copyIn (copy + bv.bv_offset) dst0 bv.bv_len] else [])
        | none => (dst0, [])
      else (dst0, [])
    let nblk := bv.bv_len / blksize
    let (c1, e1) :=
      cpBlocks priv ida write cmd blksize blk_per_trk last_rec nblk recid dst
    let (c2, e2) :=
      cpSegments priv ida pageCacheOn pcAlloc write cmd blksize blk_per_trk
        last_rec rest (segIdx + 1) (recid + nblk)
    (c1 ++ c2, evs0 ++ e1 ++ e2)

/-- `dasd_eckd_build_cp`: translate a block request into a channel
program.  The model does not distinguish the base device from the start
device (alias routing is an external collaborator); `clock`, `ida`,
`pageCacheOn`/`pcAlloc` are the external oracles described above.

An allocation failure of the request object itself is outside the
modelled scope: `dasd_smalloc_request` is modelled as always
succeeding, and `allocated`/`freed` count its invocations and those of
`dasd_sfree_request`. -/
def dasd_eckd_build_cp (clock : SyncClock) (ida : IdalOracle)
    (pageCacheOn : Bool) (pcAlloc : PageCacheAlloc)
    (priv : DasdEckdPrivate) (block : DasdBlock) (req : Request) :
    BuildOutcome :=
  let cmd := if req.write then DASD_ECKD_CCW_WRITE_MT else DASD_ECKD_CCW_READ_MT
  -- Calculate number of blocks/records per track.
  let blksize := block.bp_block
  let blk_per_trk := recs_per_track priv.rdc_data 0 blksize
  -- Calculate record id of first and last block.
  let first_rec := req.sector >>> block.s2b_shift
  let first_trk := first_rec / blk_per_trk
  let first_offs := first_rec % blk_per_trk
  let last_rec := (req.sector + req.nr_sectors - 1) >>> block.s2b_shift
  let last_trk := last_rec / blk_per_trk
  -- Check struct bio and count the number of blocks for the request.
  match countSegments ida blksize block.s2b_shift req.segments with
  | .error e => { result := .error e, events := [], allocated := 0, freed := 0 }
  | .ok (count, cidaw) =>
    -- Paranoia.  (The source compares `sector_t` values; the signed
    -- difference is modelled in `Int` to keep the comparison exact.)
    if (count : Int) ≠ (last_rec : Int) - (first_rec : Int) + 1 then
      { result := .error (-EINVAL), events := [], allocated := 0, freed := 0 }
    else
      -- use the prefix command if available
      let usePfx := priv.features_pfx
      let cplength := 2 + count
      let datasize :=
        if usePfx then
          sizeof_PFX_eckd_data + sizeof_LO_eckd_data + cidaw * sizeof_ulong
        else
          sizeof_DE_eckd_data + sizeof_LO_eckd_data + cidaw * sizeof_ulong
      -- Find out the number of additional locate record ccws for cdl.
      let extraLoc :=
        if priv.uses_cdl ∧ first_rec < 2 * blk_per_trk then
          if last_rec ≥ 2 * blk_per_trk then 2 * blk_per_trk - first_rec else count
        else 0
      let cplength := cplength + extraLoc
      let datasize := datasize + extraLoc * sizeof_LO_eckd_data
      -- Allocate the ccw request (modelled as always succeeding).
      -- First ccw is define extent or prefix.
      let (rcFirst, firstCcw) :=
        if usePfx then
          let (rc, ccw, pfxd) := prefixCcw clock first_trk last_trk cmd priv
          (rc, CPccw.pfx ccw pfxd)
        else
          let (rc, ccw, ded) := define_extent clock first_trk last_trk cmd priv
          (rc, CPccw.de ccw ded)
      if rcFirst = -EAGAIN then
        -- Clock not in sync and XRC is enabled.  Try again later.
        { result := .error (-EAGAIN), events := [], allocated := 1, freed := 1 }
      else
        -- Build locate_record+read/write ccws.
        let initLoc : List CPccw :=
          if priv.uses_cdl = false ∨ first_rec > 2 * blk_per_trk then
            -- Only standard blocks so there is just one locate record.
            let (ccw, lo) :=
              locate_record first_trk (first_offs + 1) (last_rec - first_rec + 1)
                cmd blksize priv
            [CPccw.lo ccw lo]
          else []
        let (dataCcws, evs) :=
          cpSegments priv ida pageCacheOn pcAlloc req.write cmd blksize
            blk_per_trk last_rec req.segments 0 first_rec
        { result := .ok
            { ccws := firstCcw :: (initLoc ++ dataCcws),
              cplength := cplength, datasize := datasize,
              retries := 256, expires := 5 * 60 * HZ,
              status := DASD_CQR_FILLED },
          events := evs, allocated := 1, freed := 0 }

/-- Classification of data-transfer CCWs within a channel program,
together with their transfer byte counts. -/
def dataCounts (l : List CPccw) : List Nat :=
  l.filterMap fun c =>
    match c with
    | .dataTransfer ccw => some ccw.count
    | _ => none

/-- The list of per-record transfer lengths for `n` records starting at
record id `recid` (specification companion of the inner loop). -/
def recCounts (uses_cdl : Bool) (blksize blk_per_trk : Nat) :
    Nat → Nat → List Nat
  | 0, _recid => []
  | n + 1, recid =>
    recCount uses_cdl blksize blk_per_trk recid ::
      recCounts uses_cdl blksize blk_per_trk n (recid + 1)

/-- Total number of whole blocks covered by a segment list. -/
def totalBlocks (blksize : Nat) (segs : List BioVec) : Nat :=
  (segs.map (fun bv => bv.bv_len / blksize)).sum

/-- The caller-buffer address of the `j`-th block of a segment list. -/
def callerBlockAddr (blksize : Nat) : List BioVec → Nat → Nat
  | [], _ => 0
  | bv :: rest, j =>
    if j < bv.bv_len / blksize then bv.page_addr + bv.bv_offset + j * blksize
    else callerBlockAddr blksize rest (j - bv.bv_len / blksize)

/-! ### Disk-layout analyzer (`dasd_eckd_end_analysis`) -/

/-- Kernel `is_power_of_2`. -/
def is_power_of_2 (n : Nat) : Bool :=
  if n ≠ 0 ∧ n &&& (n - 1) = 0 then true else false

/-- Modelled from the spec: `dasd_check_blocksize` is declared in the
core header `dasd_int.h`, which is not part of the source under
analysis.  It decides whether a length is a usable block size; the
usable sizes are the powers of two in the standard device range
512–4096 (the driver shifts 512 up to the block size when deriving
`s2b_shift`). -/
def dasd_check_blocksize (bsize : Nat) : Int :=
  if bsize < 512 ∨ bsize > 4096 ∨ is_power_of_2 bsize = false then -EMEDIUMTYPE
  else 0

/-- The loop `for (sb = 512; sb < bp_block; sb = sb << 1) s2b_shift++`
with an explicit fuel (64 doublings cover every representable block
size). -/
def s2bShiftLoop (bp : Nat) : Nat → Nat → Nat → Nat
  | 0, _sb, acc => acc
  | fuel + 1, sb, acc =>
    if sb < bp then s2bShiftLoop bp fuel (sb <<< 1) (acc + 1) else acc

def s2bShift (bp : Nat) : Nat := s2bShiftLoop bp 64 512 0

/-- The volume state derived by a successful analysis. -/
structure AnalysisResult where
  uses_cdl : Bool
  bp_block : Nat
  s2b_shift : Nat
  blocks : Nat
  deriving DecidableEq

/-- `dasd_eckd_end_analysis`: phase 2 of the layout analysis.  Inputs
are the device state after the analysis channel program ran
(`priv.init_cqr_status`, `priv.count_area`) and the volume's current
block size `bp_block0` (`block->bp_block`, still 0 on the first
analysis of a volume). -/
def dasd_eckd_end_analysis (priv : DasdEckdPrivate) (bp_block0 : Nat) :
    Except Int AnalysisResult :=
  let status := priv.init_cqr_status
  if status ≠ DASD_CQR_DONE then
    .error (-EMEDIUMTYPE)  -- volume analysis returned unformatted disk
  else
    let ca := fun i => priv.count_area.getD i {}
    -- Check Track 0 for Compatible Disk Layout
    let cdlMatch :=
      (List.range 3).all fun i =>
        ((ca i).kl == 4) && ((ca i).dl == dasd_eckd_cdl_reclen i - 4)
    let sel : Option EckdCount :=
      if cdlMatch then some (ca 4)
      else if (List.range 5).all (fun i =>
                ((ca i).kl == 0) && ((ca i).dl == (ca 0).dl)) then
        some (ca 0)
      else none
    let bp_block :=
      match sel with
      | some c =>
        -- we found nothing violating our disk layout
        if c.kl = 0 ∧ dasd_check_blocksize c.dl = 0 then c.dl else bp_block0
      | none => bp_block0
    if bp_block = 0 then
      .error (-EMEDIUMTYPE)  -- Volume has incompatible disk layout
    else
      let blk_per_trk := recs_per_track priv.rdc_data 0 bp_block
      .ok { uses_cdl := cdlMatch, bp_block := bp_block,
            s2b_shift := s2bShift bp_block,
            blocks := priv.rdc_data.no_cyl * priv.rdc_data.trk_per_cyl *
              blk_per_trk }

/-! ### Format planner (`dasd_eckd_format_device`) -/

/-- `struct format_data_t`. -/
structure FormatData where
  start_unit : Nat
  stop_unit : Nat
  blksize : Nat
  intensity : Nat
  deriving DecidableEq

/-- `dasd_eckd_format_device`: build the channel program formatting one
track.  `block_bp` is `device->block->bp_block` (used for the
record-zero locate length).  The `define_extent` return code is ignored
by the source here, so the clock oracle only affects payload bits. -/
def dasd_eckd_format_device (clock : SyncClock) (priv : DasdEckdPrivate)
    (block_bp : Nat) (fdata : FormatData) : Except Int CqrModel :=
  let rpt := recs_per_track priv.rdc_data 0 fdata.blksize
  let cyl := fdata.start_unit / priv.rdc_data.trk_per_cyl
  let head := fdata.start_unit % priv.rdc_data.trk_per_cyl
  -- Sanity checks.
  if fdata.start_unit ≥ priv.rdc_data.no_cyl * priv.rdc_data.trk_per_cyl then
    .error (-EINVAL)  -- Track no too big
  else if fdata.start_unit > fdata.stop_unit then
    .error (-EINVAL)  -- Track reached, ending
  else if dasd_check_blocksize fdata.blksize ≠ 0 then
    .error (-EINVAL)  -- Invalid blocksize
  else
    -- fdata->intensity is a bit string: bit 0 write record zero, bit 1
    -- write home address (not supported), bit 2 invalidate tracks,
    -- bit 3 use OS/390 compatible disk layout (cdl).
    let cpd : Option (Nat × Nat) :=
      if fdata.intensity = 0x00 ∨ fdata.intensity = 0x08 then
        -- Normal format (/ use cdl)
        some (2 + rpt,
              sizeof_DE_eckd_data + sizeof_LO_eckd_data + rpt * sizeof_eckd_count)
      else if fdata.intensity = 0x01 ∨ fdata.intensity = 0x09 then
        -- Write record zero and format track (/ use cdl)
        some (3 + rpt,
              sizeof_DE_eckd_data + sizeof_LO_eckd_data + sizeof_eckd_count +
                rpt * sizeof_eckd_count)
      else if fdata.intensity = 0x04 ∨ fdata.intensity = 0x0c then
        -- Invalidate track (/ use cdl)
        some (3, sizeof_DE_eckd_data + sizeof_LO_eckd_data + sizeof_eckd_count)
      else none  -- Invalid flags
    match cpd with
    | none => .error (-EINVAL)
    | some (cplength, datasize) =>
      -- intensity & ~0x08: the accepted values are below 0x10, so
      -- clearing bit 3 is masking with 0x7.
      let base := fdata.intensity &&& 0x7
      let headCcws : List CPccw :=
        if base = 0x00 then  -- Normal format.
          let (_, deCcw, deData) :=
            define_extent clock fdata.start_unit fdata.start_unit
              DASD_ECKD_CCW_WRITE_CKD priv
          let (loCcw, loData) :=
            locate_record fdata.start_unit 0 rpt DASD_ECKD_CCW_WRITE_CKD
              fdata.blksize priv
          [CPccw.de deCcw deData, CPccw.lo loCcw loData]
        else if base = 0x01 then  -- Write record zero + format track.
          let (_, deCcw, deData) :=
            define_extent clock fdata.start_unit fdata.start_unit
              DASD_ECKD_CCW_WRITE_RECORD_ZERO priv
          let (loCcw, loData) :=
            locate_record fdata.start_unit 0 (rpt + 1)
              DASD_ECKD_CCW_WRITE_RECORD_ZERO block_bp priv
          [CPccw.de deCcw deData, CPccw.lo loCcw loData]
        else  -- base = 0x04: Invalidate track.
          let (_, deCcw, deData) :=
            define_extent clock fdata.start_unit fdata.start_unit
              DASD_ECKD_CCW_WRITE_CKD priv
          let (loCcw, loData) :=
            locate_record fdata.start_unit 0 1 DASD_ECKD_CCW_WRITE_CKD 8 priv
          [CPccw.de deCcw deData, CPccw.lo loCcw loData]
      let r0Ccws : List CPccw :=
        if fdata.intensity &&& 0x01 ≠ 0 then  -- write record zero
          [CPccw.wrEct
            { cmd_code := DASD_ECKD_CCW_WRITE_RECORD_ZERO, flagSLI := true,
              count := 8 }
            { cyl := cyl, head := head, record := 0, kl := 0, dl := 8 }]
        else []
      let tailCcws : List CPccw :=
        if base &&& 0x04 ≠ 0 then  -- erase track
          [CPccw.wrEct
            { cmd_code := DASD_ECKD_CCW_WRITE_CKD, flagSLI := true, count := 8 }
            { cyl := cyl, head := head, record := 1, kl := 0, dl := 0 }]
        else  -- write remaining records
          (List.range rpt).map fun i =>
            let ect0 : EckdCount :=
              { cyl := cyl, head := head, record := i + 1, kl := 0,
                dl := fdata.blksize }
            -- Check for special tracks 0-1 when formatting CDL
            let ect1 :=
              if fdata.intensity &&& 0x08 ≠ 0 ∧ fdata.start_unit = 0 ∧ i < 3 then
                { ect0 with kl := 4, dl := sizes_trk0.getD i 0 - 4 }
              else ect0
            let ect2 :=
              if fdata.intensity &&& 0x08 ≠ 0 ∧ fdata.start_unit = 1 then
                { ect1 with kl := 44, dl := LABEL_SIZE - 44 }
              else ect1
            CPccw.wrEct
              { cmd_code := DASD_ECKD_CCW_WRITE_CKD, flagSLI := true, count := 8 }
              ect2
      .ok { ccws := headCcws ++ r0Ccws ++ tailCcws,
            cplength := cplength, datasize := datasize,
            retries := 5, expires := 0, status := DASD_CQR_FILLED }

/-! ### In-flight cap (`dasd_eckd_build_alias_cp`) -/

def DASD_ECKD_CHANQ_MAX_SIZE : Nat := 4

/-- The chosen start device (`dasd_alias_get_start_dev` result, or the
base device): its private data and its outstanding, already-built
requests. -/
structure AliasDevice where
  priv : DasdEckdPrivate
  outstanding : List CqrModel
  deriving DecidableEq

/-- Outcome of `dasd_eckd_build_alias_cp`: the build result, the device
state afterwards, and the number of request objects allocated. -/
structure AliasBuildOutcome where
  result : Except Int CqrModel
  dev : AliasDevice
  allocated : Nat

/-- `dasd_eckd_build_alias_cp`: gate the build behind the per-device
in-flight cap.  The counter is incremented before the inner build and
decremented again if the inner build fails. -/
def dasd_eckd_build_alias_cp (clock : SyncClock) (ida : IdalOracle)
    (pageCacheOn : Bool) (pcAlloc : PageCacheAlloc)
    (dev : AliasDevice) (block : DasdBlock) (req : Request) :
    AliasBuildOutcome :=
  if dev.priv.count ≥ DASD_ECKD_CHANQ_MAX_SIZE then
    { result := .error (-EBUSY), dev := dev, allocated := 0 }
  else
    let priv1 := { dev.priv with count := dev.priv.count + 1 }
    let o := dasd_eckd_build_cp clock ida pageCacheOn pcAlloc priv1 block req
    match o.result with
    | .ok cqr =>
      { result := .ok cqr, dev := { dev with priv := priv1 },
        allocated := o.allocated }
    | .error e =>
      { result := .error e,
        dev := { dev with priv := { priv1 with count := priv1.count - 1 } },
        allocated := o.allocated }

/-- The pad-fill events of the inner loop, as a recursive
specification: a `memset(dst + reclen, 0xe5, blksize - reclen)` for
every covered CDL special record shorter than the block size on a
read. -/
def fillEvs (priv : DasdEckdPrivate) (write : Bool)
    (blksize blk_per_trk : Nat) : Nat → Nat → Nat → List MemEvent
  | 0, _recid, _dst => []
  | n + 1, recid, dst =>
    (if priv.uses_cdl ∧ recid < 2 * blk_per_trk ∧
        dasd_eckd_cdl_special blk_per_trk recid ∧
        dasd_eckd_cdl_reclen recid < blksize ∧ write = false then
      [MemEvent.fill (dst + dasd_eckd_cdl_reclen recid) 0xe5
        (blksize - dasd_eckd_cdl_reclen recid)]
    else []) ++
      fillEvs priv write blksize blk_per_trk n (recid + 1) (dst + blksize)

/-- Projections of a build result, for stating facts about the
channel program of a successful build. -/
def resCplength : Except Int CqrModel → Nat
  | .ok c => c.cplength
  | .error _ => 0

def resCcwCount : Except Int CqrModel → Nat
  | .ok c => c.ccws.length
  | .error _ => 0

/-! ## Theorems -/
/-! ### Lemmas about the scatter/gather loops -/

theorem dataCounts_append (l1 l2 : List CPccw) :
    dataCounts (l1 ++ l2) = dataCounts l1 ++ dataCounts l2 :=
  List.filterMap_append l1 l2 _

theorem recCounts_length (u : Bool) (bs bpt : Nat) :
    ∀ n recid, (recCounts u bs bpt n recid).length = n := by
  intro n
  induction n with
  | zero => intro recid; rfl
  | succ n ih => intro recid; simp [recCounts, ih]

theorem recCounts_add (u : Bool) (bs bpt : Nat) :
    ∀ n1 n2 recid, recCounts u bs bpt (n1 + n2) recid =
      recCounts u bs bpt n1 recid ++ recCounts u bs bpt n2 (recid + n1) := by
  intro n1
  induction n1 with
  | zero => intro n2 recid; simp [recCounts]
  | succ n1 ih =>
    intro n2 recid
    have h : n1 + 1 + n2 = (n1 + n2) + 1 := by omega
    rw [h]
    simp only [recCounts, ih, List.cons_append]
    have h2 : recid + 1 + n1 = recid + (n1 + 1) := by omega
    rw [h2]

/-- Away from the CDL region every record transfers a full block. -/
theorem recCount_eq_blksize (u : Bool) (bs bpt recid : Nat)
    (h : u = false ∨ 2 * bpt ≤ recid) :
    recCount u bs bpt recid = bs := by
  unfold recCount
  rcases h with h | h
  · simp [h]
  · rw [if_neg]
    rintro ⟨-, h2, -⟩
    omega

theorem recCounts_sum_no_cdl (u : Bool) (bs bpt : Nat) :
    ∀ n recid, (u = false ∨ 2 * bpt ≤ recid) →
      (recCounts u bs bpt n recid).sum = n * bs := by
  intro n
  induction n with
  | zero => intro recid h; simp [recCounts]
  | succ n ih =>
    intro recid h
    have hh : u = false ∨ 2 * bpt ≤ recid + 1 := by
      rcases h with h | h
      · exact Or.inl h
      · exact Or.inr (by omega)
    simp only [recCounts, List.sum_cons, ih (recid + 1) hh,
      recCount_eq_blksize u bs bpt recid h]
    ring

theorem dataCounts_nil : dataCounts [] = [] := rfl

theorem dataCounts_cons_lo (c : Ccw1) (d : LO_eckd_data) (l : List CPccw) :
    dataCounts (CPccw.lo c d :: l) = dataCounts l := rfl

theorem dataCounts_cons_data (c : Ccw1) (l : List CPccw) :
    dataCounts (CPccw.dataTransfer c :: l) = c.count :: dataCounts l := rfl

/-- The inner loop emits one data-transfer CCW per block, carrying
exactly the per-record transfer lengths. -/
theorem cpBlocks_dataCounts (priv : DasdEckdPrivate) (ida : IdalOracle)
    (write : Bool) (cmd blksize blk_per_trk last_rec : Nat) :
    ∀ n recid dst,
      dataCounts (cpBlocks priv ida write cmd blksize blk_per_trk last_rec
        n recid dst).1 =
      recCounts priv.uses_cdl blksize blk_per_trk n recid := by
  intro n
  induction n with
  | zero => intro recid dst; rfl
  | succ n ih =>
    intro recid dst
    simp only [cpBlocks, recCounts]
    by_cases hu : priv.uses_cdl = true
    · by_cases hlt : recid < 2 * blk_per_trk
      · have hne : ¬ (recid = 2 * blk_per_trk) := by omega
        by_cases hsp : dasd_eckd_cdl_special blk_per_trk recid = true
        · simp [hu, hlt, hne, hsp, dataCounts_append, dataCounts_cons_lo,
            dataCounts_cons_data, dataCounts_nil, ih, recCount]
        · simp [hu, hlt, hne, hsp, dataCounts_append, dataCounts_cons_lo,
            dataCounts_cons_data, dataCounts_nil, ih, recCount]
      · by_cases heq : recid = 2 * blk_per_trk
        · simp [hu, hlt, heq, dataCounts_append, dataCounts_cons_lo,
            dataCounts_cons_data, dataCounts_nil, ih, recCount]
        · simp [hu, hlt, heq, dataCounts_append, dataCounts_cons_lo,
            dataCounts_cons_data, dataCounts_nil, ih, recCount]
    · simp [hu, dataCounts_append, dataCounts_cons_lo,
        dataCounts_cons_data, dataCounts_nil, ih, recCount]



theorem dataCounts_cons_de (c : Ccw1) (d : DE_eckd_data) (l : List CPccw) :
    dataCounts (CPccw.de c d :: l) = dataCounts l := rfl

theorem dataCounts_cons_pfx (c : Ccw1) (d : PFX_eckd_data) (l : List CPccw) :
    dataCounts (CPccw.pfx c d :: l) = dataCounts l := rfl

theorem totalBlocks_nil (bs : Nat) : totalBlocks bs [] = 0 := rfl

theorem totalBlocks_cons (bs : Nat) (bv : BioVec) (rest : List BioVec) :
    totalBlocks bs (bv :: rest) = bv.bv_len / bs + totalBlocks bs rest := by
  simp [totalBlocks]

/-- The outer loop emits, per segment, the per-record transfer lengths
of that segment's blocks; the page-cache substitution only changes
addresses, never counts. -/
theorem cpSegments_dataCounts (priv : DasdEckdPrivate) (ida : IdalOracle)
    (pcOn : Bool) (pcA : PageCacheAlloc) (write : Bool)
    (cmd blksize blk_per_trk last_rec : Nat) :
    ∀ segs segIdx recid,
      dataCounts (cpSegments priv ida pcOn pcA write cmd blksize blk_per_trk
        last_rec segs segIdx recid).1 =
      recCounts priv.uses_cdl blksize blk_per_trk
        (totalBlocks blksize segs) recid := by
  intro segs
  induction segs with
  | nil => intro segIdx recid; rfl
  | cons bv rest ih =>
    intro segIdx recid
    by_cases hpc : pcOn = true
    · subst hpc
      rcases halloc : pcA segIdx with _ | copy <;>
        simp [cpSegments, halloc, dataCounts_append,
          cpBlocks_dataCounts, ih, totalBlocks_cons, recCounts_add]
    · rw [Bool.not_eq_true] at hpc
      subst hpc
      simp [cpSegments, dataCounts_append, cpBlocks_dataCounts, ih,
        totalBlocks_cons, recCounts_add]

/-- Every data-transfer CCW the inner loop emits has its indirection
flag set exactly when `idal_is_needed` holds for its data address. -/
theorem cpBlocks_ida (priv : DasdEckdPrivate) (ida : IdalOracle)
    (write : Bool) (cmd blksize blk_per_trk last_rec : Nat) :
    ∀ n recid dst ccw,
      CPccw.dataTransfer ccw ∈
        (cpBlocks priv ida write cmd blksize blk_per_trk last_rec
          n recid dst).1 →
      ccw.flagIDA = ida ccw.cda blksize := by
  intro n
  induction n with
  | zero =>
    intro recid dst ccw h
    simp [cpBlocks] at h
  | succ n ih =>
    intro recid dst ccw h
    simp only [cpBlocks] at h
    split_ifs at h <;>
      (simp [List.mem_append, List.mem_cons] at h
       rcases h with h | h
       · subst h; rfl
       · exact ih _ _ _ h)

theorem cpSegments_ida (priv : DasdEckdPrivate) (ida : IdalOracle)
    (pcOn : Bool) (pcA : PageCacheAlloc) (write : Bool)
    (cmd blksize blk_per_trk last_rec : Nat) :
    ∀ segs segIdx recid ccw,
      CPccw.dataTransfer ccw ∈
        (cpSegments priv ida pcOn pcA write cmd blksize blk_per_trk last_rec
          segs segIdx recid).1 →
      ccw.flagIDA = ida ccw.cda blksize := by
  intro segs
  induction segs with
  | nil =>
    intro segIdx recid ccw h
    simp [cpSegments] at h
  | cons bv rest ih =>
    intro segIdx recid ccw h
    by_cases hpc : pcOn = true
    · subst hpc
      rcases halloc : pcA segIdx with _ | copy <;>
        (simp only [cpSegments, halloc] at h
         simp only [List.mem_append] at h
         rcases h with h | h
         · exact cpBlocks_ida priv ida write cmd blksize blk_per_trk
             last_rec _ _ _ _ h
         · exact ih _ _ _ h)
    · rw [Bool.not_eq_true] at hpc
      subst hpc
      simp only [cpSegments] at h
      simp only [List.mem_append] at h
      rcases h with h | h
      · exact cpBlocks_ida priv ida write cmd blksize blk_per_trk
          last_rec _ _ _ _ h
      · exact ih _ _ _ h

/-- A successful `dasd_eckd_build_cp` run passed the segment
validation, and its channel program's data-transfer CCWs are exactly
the per-record transfers of the covered range; the memory side effects
are those of the segment loop. -/
theorem build_cp_ok_shape (clock : SyncClock) (ida : IdalOracle)
    (pcOn : Bool) (pcA : PageCacheAlloc) (priv : DasdEckdPrivate)
    (block : DasdBlock) (req : Request) (cqr : CqrModel)
    (hok : (dasd_eckd_build_cp clock ida pcOn pcA priv block req).result =
      .ok cqr) :
    (∃ c w, countSegments ida block.bp_block block.s2b_shift req.segments =
      .ok (c, w)) ∧
    dataCounts cqr.ccws =
      recCounts priv.uses_cdl block.bp_block
        (recs_per_track priv.rdc_data 0 block.bp_block)
        (totalBlocks block.bp_block req.segments)
        (req.sector >>> block.s2b_shift) ∧
    (∀ ccw, CPccw.dataTransfer ccw ∈ cqr.ccws →
      ccw.flagIDA = ida ccw.cda block.bp_block) ∧
    (dasd_eckd_build_cp clock ida pcOn pcA priv block req).events =
      (cpSegments priv ida pcOn pcA req.write
        (if req.write then DASD_ECKD_CCW_WRITE_MT else DASD_ECKD_CCW_READ_MT)
        block.bp_block (recs_per_track priv.rdc_data 0 block.bp_block)
        ((req.sector + req.nr_sectors - 1) >>> block.s2b_shift)
        req.segments 0 (req.sector >>> block.s2b_shift)).2 := by
  unfold dasd_eckd_build_cp at hok ⊢
  dsimp only at hok ⊢
  rcases hcs : countSegments ida block.bp_block block.s2b_shift
      req.segments with e | ⟨cnt, cw⟩
  · rw [hcs] at hok
    exact absurd hok (by simp)
  · rw [hcs] at hok
    refine ⟨⟨cnt, cw, rfl⟩, ?_⟩
    dsimp only at hok ⊢
    by_cases hcount : (cnt : Int) ≠
        (((req.sector + req.nr_sectors - 1) >>> block.s2b_shift : Nat) : Int) -
          ((req.sector >>> block.s2b_shift : Nat) : Int) + 1
    · rw [if_pos hcount] at hok
      exact absurd hok (by simp)
    · rw [if_neg hcount] at hok ⊢
      by_cases hp : priv.features_pfx = true
      · rcases hpc : prefixCcw clock
            ((req.sector >>> block.s2b_shift) /
              recs_per_track priv.rdc_data 0 block.bp_block)
            (((req.sector + req.nr_sectors - 1) >>> block.s2b_shift) /
              recs_per_track priv.rdc_data 0 block.bp_block)
            (if req.write = true then DASD_ECKD_CCW_WRITE_MT
             else DASD_ECKD_CCW_READ_MT) priv with ⟨rc1, ccw1, pfx1⟩
        simp only [hp, if_true] at hok ⊢
        rw [hpc] at hok
        dsimp only at hok
        by_cases hrc : rc1 = -EAGAIN
        · rw [if_pos hrc] at hok
          exact absurd hok (by simp)
        · rw [if_neg hrc] at hok ⊢
          dsimp only at hok ⊢
          injection hok with hok
          subst hok
          refine ⟨?_, ?_, rfl⟩
          · by_cases hInit : priv.uses_cdl = false ∨
                req.sector >>> block.s2b_shift >
                  2 * recs_per_track priv.rdc_data 0 block.bp_block
            · simp [hInit, dataCounts_cons_pfx, dataCounts_cons_lo,
                dataCounts_append, cpSegments_dataCounts]
            · simp [hInit, dataCounts_cons_pfx, dataCounts_cons_lo,
                dataCounts_append, cpSegments_dataCounts]
          · intro ccw h
            by_cases hInit : priv.uses_cdl = false ∨
                req.sector >>> block.s2b_shift >
                  2 * recs_per_track priv.rdc_data 0 block.bp_block
            · simp [hInit] at h
              exact cpSegments_ida priv ida pcOn pcA req.write _
                block.bp_block _ _ _ _ _ _ h
            · simp [hInit] at h
              exact cpSegments_ida priv ida pcOn pcA req.write _
                block.bp_block _ _ _ _ _ _ h
      · rcases hpc : define_extent clock
            ((req.sector >>> block.s2b_shift) /
              recs_per_track priv.rdc_data 0 block.bp_block)
            (((req.sector + req.nr_sectors - 1) >>> block.s2b_shift) /
              recs_per_track priv.rdc_data 0 block.bp_block)
            (if req.write = true then DASD_ECKD_CCW_WRITE_MT
             else DASD_ECKD_CCW_READ_MT) priv with ⟨rc1, ccw1, ded1⟩
        simp only [hp, Bool.false_eq_true, if_false] at hok ⊢
        rw [hpc] at hok
        dsimp only at hok
        by_cases hrc : rc1 = -EAGAIN
        · rw [if_pos hrc] at hok
          exact absurd hok (by simp)
        · rw [if_neg hrc] at hok ⊢
          dsimp only at hok ⊢
          injection hok with hok
          subst hok
          refine ⟨?_, ?_, rfl⟩
          · by_cases hInit : priv.uses_cdl = false ∨
                req.sector >>> block.s2b_shift >
                  2 * recs_per_track priv.rdc_data 0 block.bp_block
            · simp [hInit, dataCounts_cons_de, dataCounts_cons_lo,
                dataCounts_append, cpSegments_dataCounts]
            · simp [hInit, dataCounts_cons_de, dataCounts_cons_lo,
                dataCounts_append, cpSegments_dataCounts]
          · intro ccw h
            by_cases hInit : priv.uses_cdl = false ∨
                req.sector >>> block.s2b_shift >
                  2 * recs_per_track priv.rdc_data 0 block.bp_block
            · simp [hInit] at h
              exact cpSegments_ida priv ida pcOn pcA req.write _
                block.bp_block _ _ _ _ _ _ h
            · simp [hInit] at h
              exact cpSegments_ida priv ida pcOn pcA req.write _
                block.bp_block _ _ _ _ _ _ h

/-- A successful segment validation means every segment was a whole
number of blocks. -/
theorem countSegments_ok_align (ida : IdalOracle) (bs s2b : Nat) :
    ∀ segs c w, countSegments ida bs s2b segs = .ok (c, w) →
      ∀ bv ∈ segs, bv.bv_len &&& (bs - 1) = 0 := by
  intro segs
  induction segs with
  | nil =>
    intro c w h bv hbv
    simp at hbv
  | cons b rest ih =>
    intro c w h bv hbv
    simp only [countSegments] at h
    by_cases hb : b.bv_len &&& (bs - 1) ≠ 0
    · rw [if_pos hb] at h
      exact absurd h (by simp)
    · rw [if_neg hb] at h
      push_neg at hb
      rcases hr : countSegments ida bs s2b rest with e | ⟨c2, w2⟩
      · rw [hr] at h
        exact absurd h (by simp)
      · rcases List.mem_cons.mp hbv with rfl | hbv2
        · exact hb
        · exact ih c2 w2 hr bv hbv2

/-- Masking with `blksize - 1` for a power-of-two block size tests
divisibility by the block size. -/
theorem align_dvd (s2b len : Nat) (h : len &&& (512 * 2 ^ s2b - 1) = 0) :
    512 * 2 ^ s2b ∣ len := by
  have h512 : (512 : Nat) * 2 ^ s2b = 2 ^ (9 + s2b) := by
    rw [pow_add]
    norm_num
  rw [h512] at h ⊢
  rw [Nat.and_pow_two_sub_one_eq_mod] at h
  exact Nat.dvd_of_mod_eq_zero h

theorem totalBlocks_mul (bs : Nat) :
    ∀ segs : List BioVec, (∀ bv ∈ segs, bs ∣ bv.bv_len) →
      totalBlocks bs segs * bs = (segs.map BioVec.bv_len).sum := by
  intro segs
  induction segs with
  | nil =>
    intro h
    simp [totalBlocks]
  | cons bv rest ih =>
    intro h
    have h1 : bs ∣ bv.bv_len := h bv (by simp)
    have h2 := ih (fun b hb => h b (by simp [hb]))
    simp only [totalBlocks_cons, List.map_cons, List.sum_cons, Nat.add_mul]
    rw [Nat.div_mul_cancel h1, h2]

/-- C1 counterexample: with `records_per_track = 2` every index of
`[records_per_track, 2*records_per_track) = {2, 3}` is special, but
index 2 gets the track-0 table length 84 (the `recid < 3` table takes
precedence in `dasd_eckd_cdl_reclen`), not the label length 140 the
claim assigns to that whole interval. -/
theorem cdl_reclen_label_clause_fails :
    dasd_eckd_cdl_special 2 2 = true ∧ 2 ≤ 2 ∧ 2 < 2 * 2 ∧
    dasd_eckd_cdl_reclen 2 = 84 ∧ dasd_eckd_cdl_reclen 2 ≠ 140 := by
  decide

/-- C1 (amended): with `uses_cdl = true`, record `recid` is special
exactly when `recid < 3` or `records_per_track ≤ recid <
2*records_per_track`; special indices 0, 1, 2 have the fixed lengths
28, 148, 84; special indices of `[records_per_track,
2*records_per_track)` other than the table indices 0–2 have the label
length 140; and every non-special index uses the caller's block
size. -/
theorem cdl_classifier_spec (blk_per_trk recid blksize : Nat) :
    (dasd_eckd_cdl_special blk_per_trk recid = true ↔
      recid < 3 ∨ (blk_per_trk ≤ recid ∧ recid < 2 * blk_per_trk)) ∧
    (dasd_eckd_cdl_reclen 0 = 28 ∧ dasd_eckd_cdl_reclen 1 = 148 ∧
      dasd_eckd_cdl_reclen 2 = 84) ∧
    (3 ≤ recid → blk_per_trk ≤ recid → recid < 2 * blk_per_trk →
      dasd_eckd_cdl_reclen recid = 140) ∧
    (dasd_eckd_cdl_special blk_per_trk recid = false →
      recCount true blksize blk_per_trk recid = blksize) := by
  refine ⟨?_, by decide, ?_, ?_⟩
  · unfold dasd_eckd_cdl_special
    split_ifs with h1 h2 h3 <;> simp <;> omega
  · intro h1 h2 h3
    unfold dasd_eckd_cdl_reclen LABEL_SIZE
    split_ifs with h4
    · omega
    · rfl
  · intro h
    unfold recCount
    split_ifs with h1
    · exact absurd h1.2.2 (by simp [h])
    · rfl

/-- C1 witness: concrete instances of `cdl_classifier_spec` for a
49-record track. -/
theorem cdl_classifier_spec_witness :
    dasd_eckd_cdl_reclen 60 = 140 ∧ recCount true 512 49 100 = 512 :=
  ⟨(cdl_classifier_spec 49 60 512).2.2.1 (by decide) (by decide) (by decide),
   (cdl_classifier_spec 49 100 512).2.2.2 (by decide)⟩

/-- C2: `recs_per_track` (a pure function of its arguments by
construction) returns 0 for every device type other than 0x3380,
0x3390 and 0x9345, and for device type 0x3390 with key length 0 it
returns exactly the claimed closed form computed with truncating
integer division. -/
theorem recs_per_track_spec (rdc : EckdCharacteristics) (kl dl : Nat) :
    (rdc.dev_type ≠ 0x3380 → rdc.dev_type ≠ 0x3390 → rdc.dev_type ≠ 0x9345 →
      recs_per_track rdc kl dl = 0) ∧
    (rdc.dev_type = 0x3390 →
      recs_per_track rdc 0 dl =
        1729 / (19 + ceil_quot (dl + 6 * (ceil_quot (dl + 6) 232 + 1)) 34)) := by
  constructor
  · intro h1 h2 h3
    unfold recs_per_track
    simp [h1, h2, h3]
  · intro h1
    unfold recs_per_track
    simp [h1]

/-- C2 witness: an unrecognized model returns 0; a 3390 with 4096-byte
records matches the closed form. -/
theorem recs_per_track_spec_witness :
    recs_per_track ⟨0x3333, 0x3990, 100, 15, false⟩ 3 777 = 0 ∧
    recs_per_track ⟨0x3390, 0x3990, 100, 15, false⟩ 0 4096 =
      1729 / (19 + ceil_quot (4096 + 6 * (ceil_quot (4096 + 6) 232 + 1)) 34) :=
  ⟨(recs_per_track_spec ⟨0x3333, 0x3990, 100, 15, false⟩ 3 777).1
      (by decide) (by decide) (by decide),
   (recs_per_track_spec ⟨0x3390, 0x3990, 100, 15, false⟩ 0 4096).2 rfl⟩

/-- `check_XRC` never touches the permission mask, the authorization
bit or the operation attribute of the define-extent data. -/
theorem check_XRC_preserves (clock : SyncClock) (ccw : Ccw1)
    (data : DE_eckd_data) (priv : DasdEckdPrivate) :
    (check_XRC clock ccw data priv).2.2.mask_perm = data.mask_perm ∧
    (check_XRC clock ccw data priv).2.2.mask_auth = data.mask_auth ∧
    (check_XRC clock ccw data priv).2.2.attributes_operation =
      data.attributes_operation := by
  unfold check_XRC
  cases clock <;> split_ifs <;> simp

/-- The fields `define_extent_switch` seeds, as functions of the
command family. -/
theorem define_extent_switch_fields (clock : SyncClock) (cmd : Nat)
    (priv : DasdEckdPrivate) :
    (define_extent_switch clock cmd priv).2.2.mask_perm =
      (if readCmds.contains cmd then 0x1
       else if writeCmds.contains cmd then 0x02
       else if writeCkdCmds.contains cmd then 0
       else if eraseCmds.contains cmd then 0x3
       else 0) ∧
    (define_extent_switch clock cmd priv).2.2.mask_auth =
      (if readCmds.contains cmd then 0
       else if writeCmds.contains cmd then 0
       else if writeCkdCmds.contains cmd then 0
       else if eraseCmds.contains cmd then 0x1
       else 0) := by
  unfold define_extent_switch
  split_ifs <;> simp [check_XRC_preserves]

/-- The downstream part of `define_extent` only adds the mode, the
regular-data-format bit and the extent boundaries: permission mask and
authorization bit come through from the switch unchanged. -/
theorem define_extent_mask_eq_switch (clock : SyncClock) (trk totrk cmd : Nat)
    (priv : DasdEckdPrivate) :
    (define_extent clock trk totrk cmd priv).2.2.mask_perm =
      (define_extent_switch clock cmd priv).2.2.mask_perm ∧
    (define_extent clock trk totrk cmd priv).2.2.mask_auth =
      (define_extent_switch clock cmd priv).2.2.mask_auth := by
  unfold define_extent
  rcases hsw : define_extent_switch clock cmd priv with ⟨rc, ccw2, data2⟩
  dsimp only
  split_ifs <;> simp

/-- The permission mask and authorization bit `define_extent` produces,
as a function of the command family. -/
theorem define_extent_mask (clock : SyncClock) (trk totrk cmd : Nat)
    (priv : DasdEckdPrivate) :
    (define_extent clock trk totrk cmd priv).2.2.mask_perm =
      (if readCmds.contains cmd then 0x1
       else if writeCmds.contains cmd then 0x02
       else if writeCkdCmds.contains cmd then 0
       else if eraseCmds.contains cmd then 0x3
       else 0) ∧
    (define_extent clock trk totrk cmd priv).2.2.mask_auth =
      (if readCmds.contains cmd then 0
       else if writeCmds.contains cmd then 0
       else if writeCkdCmds.contains cmd then 0
       else if eraseCmds.contains cmd then 0x1
       else 0) := by
  obtain ⟨h1, h2⟩ := define_extent_mask_eq_switch clock trk totrk cmd priv
  obtain ⟨h3, h4⟩ := define_extent_switch_fields clock cmd priv
  exact ⟨h1.trans h3, h2.trans h4⟩

/-- C7 counterexample: `DASD_ECKD_CCW_WRITE_CKD` is a write opcode, yet
the extent it produces carries permission mask 0 (only the cache-bypass
operation attribute is set for the CKD-format writes), not the
write-only mask 0x2. -/
theorem define_extent_write_ckd_perm_zero :
    (define_extent (Except.ok 0) 2 5 DASD_ECKD_CCW_WRITE_CKD
      ⟨⟨0x3390, 0x3990, 100, 15, false⟩, true, 0, 0, false, 0, 1, []⟩).2.2.mask_perm
        = 0 ∧ (0 : Nat) ≠ 0x2 := by
  constructor
  · rfl
  · decide

/-- C7 (amended): `define_extent` sets the permission mask purely from
the operation kind: read-family opcodes yield read-only permission
(0x1), the plain/KD write-family opcodes yield write-only permission
(0x2), the erase/write-special opcodes yield read+write permission with
the authorize bit (0x3 with auth 0x1), and the CKD-format write opcodes
(`WRITE_CKD`, `WRITE_CKD_MT`) leave the permission mask 0. -/
theorem define_extent_perm_spec (clock : SyncClock) (trk totrk cmd : Nat)
    (priv : DasdEckdPrivate) :
    (cmd ∈ readCmds →
      (define_extent clock trk totrk cmd priv).2.2.mask_perm = 0x1 ∧
      (define_extent clock trk totrk cmd priv).2.2.mask_auth = 0) ∧
    (cmd ∈ writeCmds →
      (define_extent clock trk totrk cmd priv).2.2.mask_perm = 0x2 ∧
      (define_extent clock trk totrk cmd priv).2.2.mask_auth = 0) ∧
    (cmd ∈ writeCkdCmds →
      (define_extent clock trk totrk cmd priv).2.2.mask_perm = 0 ∧
      (define_extent clock trk totrk cmd priv).2.2.mask_auth = 0) ∧
    (cmd ∈ eraseCmds →
      (define_extent clock trk totrk cmd priv).2.2.mask_perm = 0x3 ∧
      (define_extent clock trk totrk cmd priv).2.2.mask_auth = 0x1) := by
  refine ⟨fun h => ?_, fun h => ?_, fun h => ?_, fun h => ?_⟩ <;>
    obtain ⟨hp, ha⟩ := define_extent_mask clock trk totrk cmd priv <;>
    fin_cases h <;> rw [hp, ha] <;> exact ⟨by decide, by decide⟩

/-- C7 witness: concrete extents for one opcode of each family. -/
theorem define_extent_perm_spec_witness :
    ((define_extent (Except.ok 0) 0 5 DASD_ECKD_CCW_READ_MT
        ⟨⟨0x3390, 0x3990, 100, 15, false⟩, true, 0, 0, false, 0, 1, []⟩).2.2.mask_perm = 0x1 ∧
     (define_extent (Except.ok 0) 0 5 DASD_ECKD_CCW_READ_MT
        ⟨⟨0x3390, 0x3990, 100, 15, false⟩, true, 0, 0, false, 0, 1, []⟩).2.2.mask_auth = 0) ∧
    ((define_extent (Except.ok 0) 0 5 DASD_ECKD_CCW_WRITE_MT
        ⟨⟨0x3390, 0x3990, 100, 15, false⟩, true, 0, 0, false, 0, 1, []⟩).2.2.mask_perm = 0x2 ∧
     (define_extent (Except.ok 0) 0 5 DASD_ECKD_CCW_WRITE_MT
        ⟨⟨0x3390, 0x3990, 100, 15, false⟩, true, 0, 0, false, 0, 1, []⟩).2.2.mask_auth = 0) ∧
    ((define_extent (Except.ok 0) 0 5 DASD_ECKD_CCW_WRITE_CKD_MT
        ⟨⟨0x3390, 0x3990, 100, 15, false⟩, true, 0, 0, false, 0, 1, []⟩).2.2.mask_perm = 0 ∧
     (define_extent (Except.ok 0) 0 5 DASD_ECKD_CCW_WRITE_CKD_MT
        ⟨⟨0x3390, 0x3990, 100, 15, false⟩, true, 0, 0, false, 0, 1, []⟩).2.2.mask_auth = 0) ∧
    ((define_extent (Except.ok 0) 0 5 DASD_ECKD_CCW_ERASE
        ⟨⟨0x3390, 0x3990, 100, 15, false⟩, true, 0, 0, false, 0, 1, []⟩).2.2.mask_perm = 0x3 ∧
     (define_extent (Except.ok 0) 0 5 DASD_ECKD_CCW_ERASE
        ⟨⟨0x3390, 0x3990, 100, 15, false⟩, true, 0, 0, false, 0, 1, []⟩).2.2.mask_auth = 0x1) :=
  ⟨(define_extent_perm_spec (Except.ok 0) 0 5 DASD_ECKD_CCW_READ_MT _).1 (by decide),
   (define_extent_perm_spec (Except.ok 0) 0 5 DASD_ECKD_CCW_WRITE_MT _).2.1 (by decide),
   (define_extent_perm_spec (Except.ok 0) 0 5 DASD_ECKD_CCW_WRITE_CKD_MT _).2.2.1 (by decide),
   (define_extent_perm_spec (Except.ok 0) 0 5 DASD_ECKD_CCW_ERASE _).2.2.2 (by decide)⟩

/-- C6: when the extent's operation attribute is sequential prestage or
sequential access, `define_extent` sets the end cylinder to
`min(end_track_cylinder + configured_extension_cylinders,
total_cylinders - 1)`; for any other operation attribute the end
cylinder is exactly `end_track / tracks_per_cylinder`. -/
theorem define_extent_prestage_clamp (clock : SyncClock) (trk totrk cmd : Nat)
    (priv : DasdEckdPrivate) :
    ((define_extent clock trk totrk cmd priv).2.2.attributes_operation =
        DASD_SEQ_PRESTAGE ∨
     (define_extent clock trk totrk cmd priv).2.2.attributes_operation =
        DASD_SEQ_ACCESS →
      (define_extent clock trk totrk cmd priv).2.2.end_ext_cyl =
        min (totrk / priv.rdc_data.trk_per_cyl + priv.attrib_nr_cyl)
          (priv.rdc_data.no_cyl - 1)) ∧
    (¬ ((define_extent clock trk totrk cmd priv).2.2.attributes_operation =
          DASD_SEQ_PRESTAGE ∨
        (define_extent clock trk totrk cmd priv).2.2.attributes_operation =
          DASD_SEQ_ACCESS) →
      (define_extent clock trk totrk cmd priv).2.2.end_ext_cyl =
        totrk / priv.rdc_data.trk_per_cyl) := by
  unfold define_extent
  rcases hsw : define_extent_switch clock cmd priv with ⟨rc, ccw2, data2⟩
  dsimp only
  split_ifs <;> simp_all <;> omega

/-- C6 witness: a 10-cylinder volume, a prestage read ending on track
135 (cylinder 9 at 15 tracks per cylinder) with a 5-cylinder
extension, is clamped to end cylinder 9; the same request with the
normal cache attribute ends at cylinder 9 with no clamp involved. -/
theorem define_extent_prestage_clamp_witness :
    (define_extent (Except.ok 0) 0 135 DASD_ECKD_CCW_READ_MT
      ⟨⟨0x3390, 0x3990, 10, 15, false⟩, false, DASD_SEQ_PRESTAGE, 5, false, 0, 1,
        []⟩).2.2.end_ext_cyl = min (135 / 15 + 5) (10 - 1) ∧
    min (135 / 15 + 5) (10 - 1) = 9 ∧
    (define_extent (Except.ok 0) 0 135 DASD_ECKD_CCW_READ_MT
      ⟨⟨0x3390, 0x3990, 10, 15, false⟩, false, DASD_NORMAL_CACHE, 5, false, 0, 1,
        []⟩).2.2.end_ext_cyl = 135 / 15 :=
  ⟨(define_extent_prestage_clamp (Except.ok 0) 0 135 DASD_ECKD_CCW_READ_MT
      ⟨⟨0x3390, 0x3990, 10, 15, false⟩, false, DASD_SEQ_PRESTAGE, 5, false, 0, 1,
        []⟩).1 (by decide),
   by decide,
   (define_extent_prestage_clamp (Except.ok 0) 0 135 DASD_ECKD_CCW_READ_MT
      ⟨⟨0x3390, 0x3990, 10, 15, false⟩, false, DASD_NORMAL_CACHE, 5, false, 0, 1,
        []⟩).2 (by decide)⟩

/-- For a multi-track write on an XRC-capable device, the rc of
`define_extent_switch` is the sync-clock error unless that error is
`-ENOSYS` or `-EACCES`, which are ignored. -/
theorem define_extent_switch_rc_write_clock_error (e : Int)
    (priv : DasdEckdPrivate)
    (hs : priv.rdc_data.facilities_XRC_supported = true) :
    (define_extent_switch (.error e) DASD_ECKD_CCW_WRITE_MT priv).1 =
      (if e = -ENOSYS ∨ e = -EACCES then 0 else e) := by
  have h1 : ¬ (DASD_ECKD_CCW_WRITE_MT ∈ readCmds) := by decide
  have h2 : DASD_ECKD_CCW_WRITE_MT ∈ writeCmds := by decide
  unfold define_extent_switch check_XRC
  simp [hs, h1, h2]

/-- The same rc computation for the prefix switch. -/
theorem prefix_switch_rc_write_clock_error (e : Int)
    (priv : DasdEckdPrivate)
    (hs : priv.rdc_data.facilities_XRC_supported = true) :
    (prefix_switch (.error e) DASD_ECKD_CCW_WRITE_MT priv).1 =
      (if e = -ENOSYS ∨ e = -EACCES then 0 else e) := by
  have h1 : ¬ (DASD_ECKD_CCW_WRITE_MT ∈ readCmds) := by decide
  have h2 : DASD_ECKD_CCW_WRITE_MT ∈ writeCmds := by decide
  unfold prefix_switch check_XRC_on_prefix
  simp [hs, h1, h2]

/-- `define_extent` passes its switch's rc through unchanged. -/
theorem define_extent_rc (clock : SyncClock) (trk totrk cmd : Nat)
    (priv : DasdEckdPrivate) :
    (define_extent clock trk totrk cmd priv).1 =
      (define_extent_switch clock cmd priv).1 := by
  unfold define_extent
  rcases hsw : define_extent_switch clock cmd priv with ⟨rc, ccw2, data2⟩
  dsimp only

/-- `prefixCcw` passes its switch's rc through unchanged. -/
theorem prefixCcw_rc (clock : SyncClock) (trk totrk cmd : Nat)
    (priv : DasdEckdPrivate) :
    (prefixCcw clock trk totrk cmd priv).1 =
      (prefix_switch clock cmd priv).1 := by
  unfold prefixCcw
  rcases hsw : prefix_switch clock cmd priv with ⟨rc, pfx⟩
  dsimp only

/-- C5: with XRC support advertised, a sync-clock read failing with
`-ENOSYS` or `-EACCES` ("unavailable") makes `check_XRC` return 0 and
leave no timestamp in the extent data, while a write build whose
sync-clock read fails with `-EAGAIN` ("clock not yet synchronized")
makes `dasd_eckd_build_cp` free the request it allocated and return
`-EAGAIN`: the allocation count equals the free count, so no request
object survives this build-time error. -/
theorem xrc_clock_error_policy (de_ccw : Ccw1) (data : DE_eckd_data)
    (ida : IdalOracle) (pageCacheOn : Bool) (pcAlloc : PageCacheAlloc)
    (priv : DasdEckdPrivate) (block : DasdBlock) (req : Request)
    (cnt cidaw : Nat)
    (hs : priv.rdc_data.facilities_XRC_supported = true)
    (hts : data.ep_sys_time = none)
    (hw : req.write = true)
    (hcs : countSegments ida block.bp_block block.s2b_shift req.segments =
      .ok (cnt, cidaw))
    (hcnt : (cnt : Int) =
      (((req.sector + req.nr_sectors - 1) >>> block.s2b_shift : Nat) : Int) -
        ((req.sector >>> block.s2b_shift : Nat) : Int) + 1) :
    ((check_XRC (.error (-ENOSYS)) de_ccw data priv).1 = 0 ∧
     (check_XRC (.error (-ENOSYS)) de_ccw data priv).2.2.ep_sys_time = none) ∧
    ((check_XRC (.error (-EACCES)) de_ccw data priv).1 = 0 ∧
     (check_XRC (.error (-EACCES)) de_ccw data priv).2.2.ep_sys_time = none) ∧
    ((dasd_eckd_build_cp (.error (-EAGAIN)) ida pageCacheOn pcAlloc priv block
        req).result = .error (-EAGAIN) ∧
     (dasd_eckd_build_cp (.error (-EAGAIN)) ida pageCacheOn pcAlloc priv block
        req).allocated =
       (dasd_eckd_build_cp (.error (-EAGAIN)) ida pageCacheOn pcAlloc priv block
        req).freed) := by
  refine ⟨?_, ?_, ?_⟩
  · unfold check_XRC
    simp [hs, hts]
  · unfold check_XRC
    simp [hs, hts]
  · unfold dasd_eckd_build_cp
    rw [hw]
    dsimp only
    rw [show (if true = true then DASD_ECKD_CCW_WRITE_MT else DASD_ECKD_CCW_READ_MT)
          = DASD_ECKD_CCW_WRITE_MT from rfl]
    rw [hcs]
    dsimp only
    rw [if_neg (by omega)]
    by_cases hp : priv.features_pfx
    · rcases hpc : prefixCcw (.error (-EAGAIN))
          ((req.sector >>> block.s2b_shift) /
            recs_per_track priv.rdc_data 0 block.bp_block)
          (((req.sector + req.nr_sectors - 1) >>> block.s2b_shift) /
            recs_per_track priv.rdc_data 0 block.bp_block)
          DASD_ECKD_CCW_WRITE_MT priv with ⟨rc1, ccw1, pfx1⟩
      have hrc1 : rc1 = -EAGAIN := by
        have h := prefixCcw_rc (.error (-EAGAIN))
          ((req.sector >>> block.s2b_shift) /
            recs_per_track priv.rdc_data 0 block.bp_block)
          (((req.sector + req.nr_sectors - 1) >>> block.s2b_shift) /
            recs_per_track priv.rdc_data 0 block.bp_block)
          DASD_ECKD_CCW_WRITE_MT priv
        rw [prefix_switch_rc_write_clock_error _ priv hs, hpc] at h
        simpa [EAGAIN, ENOSYS, EACCES] using h
      subst hrc1
      simp [hp]
    · rcases hpc : define_extent (.error (-EAGAIN))
          ((req.sector >>> block.s2b_shift) /
            recs_per_track priv.rdc_data 0 block.bp_block)
          (((req.sector + req.nr_sectors - 1) >>> block.s2b_shift) /
            recs_per_track priv.rdc_data 0 block.bp_block)
          DASD_ECKD_CCW_WRITE_MT priv with ⟨rc1, ccw1, ded1⟩
      have hrc1 : rc1 = -EAGAIN := by
        have h := define_extent_rc (.error (-EAGAIN))
          ((req.sector >>> block.s2b_shift) /
            recs_per_track priv.rdc_data 0 block.bp_block)
          (((req.sector + req.nr_sectors - 1) >>> block.s2b_shift) /
            recs_per_track priv.rdc_data 0 block.bp_block)
          DASD_ECKD_CCW_WRITE_MT priv
        rw [define_extent_switch_rc_write_clock_error _ priv hs, hpc] at h
        simpa [EAGAIN, ENOSYS, EACCES] using h
      subst hrc1
      simp [hp]

/-- C5 witness: a concrete XRC-capable device; the unavailable errors
are swallowed by `check_XRC` and the not-synchronized error turns a
write build into a freed request and `-EAGAIN`. -/
theorem xrc_clock_error_policy_witness :
    ((check_XRC (.error (-ENOSYS)) {} {}
        ⟨⟨0x3390, 0x3990, 100, 15, true⟩, true, 0, 0, false, 0, 1, []⟩).1 = 0 ∧
     (check_XRC (.error (-ENOSYS)) {} {}
        ⟨⟨0x3390, 0x3990, 100, 15, true⟩, true, 0, 0, false, 0, 1,
          []⟩).2.2.ep_sys_time = none) ∧
    ((check_XRC (.error (-EACCES)) {} {}
        ⟨⟨0x3390, 0x3990, 100, 15, true⟩, true, 0, 0, false, 0, 1, []⟩).1 = 0 ∧
     (check_XRC (.error (-EACCES)) {} {}
        ⟨⟨0x3390, 0x3990, 100, 15, true⟩, true, 0, 0, false, 0, 1,
          []⟩).2.2.ep_sys_time = none) ∧
    ((dasd_eckd_build_cp (.error (-EAGAIN)) (fun _ _ => false) false
        (fun _ => none)
        ⟨⟨0x3390, 0x3990, 100, 15, true⟩, true, 0, 0, false, 0, 1, []⟩
        ⟨512, 0⟩ ⟨0, 1, true, [⟨4096, 0, 512⟩]⟩).result = .error (-EAGAIN) ∧
     (dasd_eckd_build_cp (.error (-EAGAIN)) (fun _ _ => false) false
        (fun _ => none)
        ⟨⟨0x3390, 0x3990, 100, 15, true⟩, true, 0, 0, false, 0, 1, []⟩
        ⟨512, 0⟩ ⟨0, 1, true, [⟨4096, 0, 512⟩]⟩).allocated =
       (dasd_eckd_build_cp (.error (-EAGAIN)) (fun _ _ => false) false
        (fun _ => none)
        ⟨⟨0x3390, 0x3990, 100, 15, true⟩, true, 0, 0, false, 0, 1, []⟩
        ⟨512, 0⟩ ⟨0, 1, true, [⟨4096, 0, 512⟩]⟩).freed) :=
  xrc_clock_error_policy {} {} (fun _ _ => false) false (fun _ => none)
    ⟨⟨0x3390, 0x3990, 100, 15, true⟩, true, 0, 0, false, 0, 1, []⟩
    ⟨512, 0⟩ ⟨0, 1, true, [⟨4096, 0, 512⟩]⟩ 1 0
    (by decide) rfl rfl (by decide) (by decide)

/-- C8: given the geometry and block-size sanity checks pass, the
format planner accepts exactly the three supported intensity
combinations, each with or without the CDL bit 0x08 — normal format
(2 + records_per_track CCWs), write-record-zero-then-format (3 +
records_per_track CCWs) and invalidate-track (3 CCWs) — and returns
`-EINVAL` for every other intensity value. -/
theorem format_device_intensity_spec (clock : SyncClock)
    (priv : DasdEckdPrivate) (block_bp : Nat) (fdata : FormatData)
    (h1 : fdata.start_unit < priv.rdc_data.no_cyl * priv.rdc_data.trk_per_cyl)
    (h2 : fdata.start_unit ≤ fdata.stop_unit)
    (h3 : dasd_check_blocksize fdata.blksize = 0) :
    (fdata.intensity = 0x00 ∨ fdata.intensity = 0x08 →
      (dasd_eckd_format_device clock priv block_bp fdata).isOk = true ∧
      resCplength (dasd_eckd_format_device clock priv block_bp fdata) =
        2 + recs_per_track priv.rdc_data 0 fdata.blksize ∧
      resCcwCount (dasd_eckd_format_device clock priv block_bp fdata) =
        2 + recs_per_track priv.rdc_data 0 fdata.blksize) ∧
    (fdata.intensity = 0x01 ∨ fdata.intensity = 0x09 →
      (dasd_eckd_format_device clock priv block_bp fdata).isOk = true ∧
      resCplength (dasd_eckd_format_device clock priv block_bp fdata) =
        3 + recs_per_track priv.rdc_data 0 fdata.blksize ∧
      resCcwCount (dasd_eckd_format_device clock priv block_bp fdata) =
        3 + recs_per_track priv.rdc_data 0 fdata.blksize) ∧
    (fdata.intensity = 0x04 ∨ fdata.intensity = 0x0c →
      (dasd_eckd_format_device clock priv block_bp fdata).isOk = true ∧
      resCplength (dasd_eckd_format_device clock priv block_bp fdata) = 3 ∧
      resCcwCount (dasd_eckd_format_device clock priv block_bp fdata) = 3) ∧
    (¬ (fdata.intensity = 0x00 ∨ fdata.intensity = 0x08) →
     ¬ (fdata.intensity = 0x01 ∨ fdata.intensity = 0x09) →
     ¬ (fdata.intensity = 0x04 ∨ fdata.intensity = 0x0c) →
      dasd_eckd_format_device clock priv block_bp fdata = .error (-EINVAL)) := by
  obtain ⟨su, st, bs, it⟩ := fdata
  simp only at h1 h2 h3 ⊢
  refine ⟨?_, ?_, ?_, ?_⟩
  · intro h
    rcases h with h | h <;> subst h <;>
      (unfold dasd_eckd_format_device
       dsimp only
       rw [if_neg (by omega), if_neg (by omega), if_neg (by simp [h3])]
       simp +decide [Except.isOk, Except.toBool, resCplength, resCcwCount] <;>
       omega)
  · intro h
    rcases h with h | h <;> subst h <;>
      (unfold dasd_eckd_format_device
       dsimp only
       rw [if_neg (by omega), if_neg (by omega), if_neg (by simp [h3])]
       simp +decide [Except.isOk, Except.toBool, resCplength, resCcwCount] <;>
       omega)
  · intro h
    rcases h with h | h <;> subst h <;>
      (unfold dasd_eckd_format_device
       dsimp only
       rw [if_neg (by omega), if_neg (by omega), if_neg (by simp [h3])]
       simp +decide [Except.isOk, Except.toBool, resCplength, resCcwCount])
  · intro ha hb hc
    unfold dasd_eckd_format_device
    dsimp only
    rw [if_neg (by omega), if_neg (by omega), if_neg (by simp [h3])]
    rw [if_neg ha, if_neg hb, if_neg hc]

/-- C8 witness: on a 3390 with 512-byte blocks (49 records per track),
representatives of the three accepted intensity groups produce the
claimed channel-program lengths and intensity 0x05 is rejected. -/
theorem format_device_intensity_spec_witness :
    (resCplength (dasd_eckd_format_device (Except.ok 0)
        ⟨⟨0x3390, 0x3990, 100, 15, false⟩, true, 0, 0, false, 0, 1, []⟩ 512
        ⟨0, 0, 512, 0x08⟩) =
      2 + recs_per_track ⟨0x3390, 0x3990, 100, 15, false⟩ 0 512) ∧
    (resCcwCount (dasd_eckd_format_device (Except.ok 0)
        ⟨⟨0x3390, 0x3990, 100, 15, false⟩, true, 0, 0, false, 0, 1, []⟩ 512
        ⟨0, 0, 512, 0x01⟩) =
      3 + recs_per_track ⟨0x3390, 0x3990, 100, 15, false⟩ 0 512) ∧
    (resCcwCount (dasd_eckd_format_device (Except.ok 0)
        ⟨⟨0x3390, 0x3990, 100, 15, false⟩, true, 0, 0, false, 0, 1, []⟩ 512
        ⟨0, 0, 512, 0x0c⟩) = 3) ∧
    dasd_eckd_format_device (Except.ok 0)
        ⟨⟨0x3390, 0x3990, 100, 15, false⟩, true, 0, 0, false, 0, 1, []⟩ 512
        ⟨0, 0, 512, 0x05⟩ = .error (-EINVAL) :=
  ⟨((format_device_intensity_spec (Except.ok 0)
      ⟨⟨0x3390, 0x3990, 100, 15, false⟩, true, 0, 0, false, 0, 1, []⟩ 512
      ⟨0, 0, 512, 0x08⟩ (by decide) (by decide) (by decide)).1 (by decide)).2.1,
   ((format_device_intensity_spec (Except.ok 0)
      ⟨⟨0x3390, 0x3990, 100, 15, false⟩, true, 0, 0, false, 0, 1, []⟩ 512
      ⟨0, 0, 512, 0x01⟩ (by decide) (by decide) (by decide)).2.1 (by decide)).2.2,
   ((format_device_intensity_spec (Except.ok 0)
      ⟨⟨0x3390, 0x3990, 100, 15, false⟩, true, 0, 0, false, 0, 1, []⟩ 512
      ⟨0, 0, 512, 0x0c⟩ (by decide) (by decide) (by decide)).2.2.1 (by decide)).2.2,
   (format_device_intensity_spec (Except.ok 0)
      ⟨⟨0x3390, 0x3990, 100, 15, false⟩, true, 0, 0, false, 0, 1, []⟩ 512
      ⟨0, 0, 512, 0x05⟩ (by decide) (by decide) (by decide)).2.2.2
     (by decide) (by decide) (by decide)⟩

/-- A length accepted by `dasd_check_blocksize` is nonzero. -/
theorem dasd_check_blocksize_ne_zero (d : Nat)
    (h : dasd_check_blocksize d = 0) : d ≠ 0 := by
  unfold dasd_check_blocksize at h
  split_ifs at h with hcond
  · exact absurd h (by norm_num [EMEDIUMTYPE])
  · push_neg at hcond
    omega

/-- C3 counterexample: a one-block CDL read starting at record 0 of a
3390 with 512-byte blocks is accepted, produces one data CCW as
claimed, but that CCW transfers only the 28 bytes of the special
record, so the sum of the data CCWs' byte counts (28) differs from the
sum of the segment lengths (512). -/
theorem build_cp_conservation_counterexample :
    ((dasd_eckd_build_cp (Except.ok 0) (fun _ _ => false) false
        (fun _ => none)
        ⟨⟨0x3390, 0x3990, 100, 15, false⟩, true, 0, 0, false, 0, 1, []⟩
        ⟨512, 0⟩ ⟨0, 1, false, [⟨4096, 0, 512⟩]⟩).result.isOk = true) ∧
    (match (dasd_eckd_build_cp (Except.ok 0) (fun _ _ => false) false
        (fun _ => none)
        ⟨⟨0x3390, 0x3990, 100, 15, false⟩, true, 0, 0, false, 0, 1, []⟩
        ⟨512, 0⟩ ⟨0, 1, false, [⟨4096, 0, 512⟩]⟩).result with
     | .ok c => (dataCounts c.ccws).length
     | .error _ => 0) = 1 ∧
    (match (dasd_eckd_build_cp (Except.ok 0) (fun _ _ => false) false
        (fun _ => none)
        ⟨⟨0x3390, 0x3990, 100, 15, false⟩, true, 0, 0, false, 0, 1, []⟩
        ⟨512, 0⟩ ⟨0, 1, false, [⟨4096, 0, 512⟩]⟩).result with
     | .ok c => (dataCounts c.ccws).sum
     | .error _ => 0) = 28 ∧
    (([⟨4096, 0, 512⟩] : List BioVec).map BioVec.bv_len).sum = 512 ∧
    (28 : Nat) ≠ 512 := by
  decide

/-- C3 (amended): every request `dasd_eckd_build_cp` accepts yields
exactly one data-transfer CCW per physical record — N of them, where
N * block_size is the total segment length — each carrying an
indirection flag exactly when `idal_is_needed` holds for its data
address; and when the request covers no CDL special record (the volume
does not use CDL, or the range starts at or beyond
`2 * records_per_track`), the sum of the data CCWs' byte counts equals
the sum of the segment lengths.  (On CDL special records the
per-record counts are the shorter special lengths, so the byte-count
sum is smaller.) -/
theorem build_cp_scatter_gather_spec (clock : SyncClock) (ida : IdalOracle)
    (pcOn : Bool) (pcA : PageCacheAlloc) (priv : DasdEckdPrivate)
    (block : DasdBlock) (req : Request) (cqr : CqrModel)
    (hblk : block.bp_block = 512 * 2 ^ block.s2b_shift)
    (hok : (dasd_eckd_build_cp clock ida pcOn pcA priv block req).result =
      .ok cqr) :
    (dataCounts cqr.ccws).length * block.bp_block =
      (req.segments.map BioVec.bv_len).sum ∧
    (∀ ccw, CPccw.dataTransfer ccw ∈ cqr.ccws →
      ccw.flagIDA = ida ccw.cda block.bp_block) ∧
    (priv.uses_cdl = false ∨
        2 * recs_per_track priv.rdc_data 0 block.bp_block ≤
          req.sector >>> block.s2b_shift →
      (dataCounts cqr.ccws).sum = (req.segments.map BioVec.bv_len).sum) := by
  obtain ⟨⟨c, w, hcs⟩, hdc, hida, -⟩ :=
    build_cp_ok_shape clock ida pcOn pcA priv block req cqr hok
  have halign := countSegments_ok_align ida block.bp_block block.s2b_shift
    req.segments c w hcs
  have hdvd : ∀ bv ∈ req.segments, block.bp_block ∣ bv.bv_len := by
    intro bv hbv
    have h1 := halign bv hbv
    rw [hblk] at h1 ⊢
    exact align_dvd _ _ h1
  have htot := totalBlocks_mul block.bp_block req.segments hdvd
  refine ⟨?_, hida, ?_⟩
  · rw [hdc, recCounts_length, htot]
  · intro hno
    rw [hdc, recCounts_sum_no_cdl priv.uses_cdl block.bp_block
      (recs_per_track priv.rdc_data 0 block.bp_block)
      (totalBlocks block.bp_block req.segments)
      (req.sector >>> block.s2b_shift) hno, htot]

/-- C3 witness: a two-block non-CDL read is accepted, produces two data
CCWs of 512 bytes each, and conserves the byte count. -/
theorem build_cp_scatter_gather_spec_witness :
    ∃ cqr, (dasd_eckd_build_cp (Except.ok 0) (fun _ _ => false) false
        (fun _ => none)
        ⟨⟨0x3390, 0x3990, 100, 15, false⟩, false, 0, 0, false, 0, 1, []⟩
        ⟨512, 0⟩ ⟨0, 2, false, [⟨4096, 0, 512⟩, ⟨8192, 0, 512⟩]⟩).result =
        .ok cqr ∧
      (dataCounts cqr.ccws).length * 512 =
        (([⟨4096, 0, 512⟩, ⟨8192, 0, 512⟩] : List BioVec).map
          BioVec.bv_len).sum ∧
      (dataCounts cqr.ccws).sum =
        (([⟨4096, 0, 512⟩, ⟨8192, 0, 512⟩] : List BioVec).map
          BioVec.bv_len).sum := by
  rcases hres : (dasd_eckd_build_cp (Except.ok 0) (fun _ _ => false) false
      (fun _ => none)
      ⟨⟨0x3390, 0x3990, 100, 15, false⟩, false, 0, 0, false, 0, 1, []⟩
      ⟨512, 0⟩ ⟨0, 2, false, [⟨4096, 0, 512⟩, ⟨8192, 0, 512⟩]⟩).result with
    e | cqr
  · have hok : (dasd_eckd_build_cp (Except.ok 0) (fun _ _ => false) false
        (fun _ => none)
        ⟨⟨0x3390, 0x3990, 100, 15, false⟩, false, 0, 0, false, 0, 1, []⟩
        ⟨512, 0⟩ ⟨0, 2, false, [⟨4096, 0, 512⟩, ⟨8192, 0, 512⟩]⟩).result.isOk
        = true := by decide
    rw [hres] at hok
    exact absurd hok (by simp [Except.isOk, Except.toBool])
  · obtain ⟨h1, -, h3⟩ := build_cp_scatter_gather_spec (Except.ok 0)
      (fun _ _ => false) false (fun _ => none)
      ⟨⟨0x3390, 0x3990, 100, 15, false⟩, false, 0, 0, false, 0, 1, []⟩
      ⟨512, 0⟩ ⟨0, 2, false, [⟨4096, 0, 512⟩, ⟨8192, 0, 512⟩]⟩ cqr
      (by norm_num) hres
    exact ⟨cqr, rfl, h1, h3 (Or.inl rfl)⟩

/-- The inner loop's memory side effects are exactly the pad fills of
`fillEvs`. -/
theorem cpBlocks_events_eq (priv : DasdEckdPrivate) (ida : IdalOracle)
    (write : Bool) (cmd blksize blk_per_trk last_rec : Nat) :
    ∀ n recid dst,
      (cpBlocks priv ida write cmd blksize blk_per_trk last_rec
        n recid dst).2 = fillEvs priv write blksize blk_per_trk n recid dst := by
  cases write with
  | false =>
    intro n
    induction n with
    | zero => intro recid dst; rfl
    | succ n ih =>
      intro recid dst
      simp only [cpBlocks, fillEvs]
      by_cases hu : priv.uses_cdl = true
      · by_cases hlt : recid < 2 * blk_per_trk
        · by_cases hsp : dasd_eckd_cdl_special blk_per_trk recid = true
          · by_cases hg : dasd_eckd_cdl_reclen recid < blksize
            · simp [hu, hlt, hsp, hg, ih]
            · simp [hu, hlt, hsp, hg, ih]
          · simp [hu, hlt, hsp, ih]
        · simp [hu, hlt, ih]
      · simp [hu, ih]
  | true =>
    intro n
    induction n with
    | zero => intro recid dst; rfl
    | succ n ih =>
      intro recid dst
      simp only [cpBlocks, fillEvs]
      by_cases hu : priv.uses_cdl = true
      · by_cases hlt : recid < 2 * blk_per_trk
        · by_cases hsp : dasd_eckd_cdl_special blk_per_trk recid = true
          · simp [hu, hlt, hsp, ih]
          · simp [hu, hlt, hsp, ih]
        · simp [hu, hlt, ih]
      · simp [hu, ih]

/-- The pad fill of a covered special record is among the inner loop's
spec events. -/
theorem fillEvs_mem (priv : DasdEckdPrivate) (blksize blk_per_trk : Nat) :
    ∀ n recid dst j, j < n →
      priv.uses_cdl = true →
      recid + j < 2 * blk_per_trk →
      dasd_eckd_cdl_special blk_per_trk (recid + j) = true →
      dasd_eckd_cdl_reclen (recid + j) < blksize →
      MemEvent.fill (dst + j * blksize + dasd_eckd_cdl_reclen (recid + j))
          0xe5 (blksize - dasd_eckd_cdl_reclen (recid + j)) ∈
        fillEvs priv false blksize blk_per_trk n recid dst := by
  intro n
  induction n with
  | zero =>
    intro recid dst j hj
    omega
  | succ n ih =>
    intro recid dst j hj hcdl hlt hsp hlen
    rcases j with _ | j
    · rw [Nat.add_zero] at hlt hsp hlen
      simp only [fillEvs]
      simp [hcdl, hlt, hsp, hlen]
    · have harith1 : recid + (j + 1) = (recid + 1) + j := by omega
      rw [harith1] at hlt hsp hlen ⊢
      have harith2 : dst + (j + 1) * blksize = (dst + blksize) + j * blksize := by
        ring
      rw [harith2]
      have h2 := ih (recid + 1) (dst + blksize) j (by omega) hcdl hlt hsp hlen
      simp only [fillEvs]
      exact List.mem_append_right _ h2

/-- The outer loop (with the copy-buffer pool disabled) pads the tail
of the caller's buffer for block `j` whenever that block is a covered
CDL special record shorter than the block size on a read. -/
theorem cpSegments_fill_mem (priv : DasdEckdPrivate) (ida : IdalOracle)
    (pcA : PageCacheAlloc) (cmd blksize blk_per_trk last_rec : Nat) :
    ∀ segs segIdx recid j, j < totalBlocks blksize segs →
      priv.uses_cdl = true →
      recid + j < 2 * blk_per_trk →
      dasd_eckd_cdl_special blk_per_trk (recid + j) = true →
      dasd_eckd_cdl_reclen (recid + j) < blksize →
      MemEvent.fill (callerBlockAddr blksize segs j +
          dasd_eckd_cdl_reclen (recid + j)) 0xe5
          (blksize - dasd_eckd_cdl_reclen (recid + j)) ∈
        (cpSegments priv ida false pcA false cmd blksize blk_per_trk last_rec
          segs segIdx recid).2 := by
  intro segs
  induction segs with
  | nil =>
    intro segIdx recid j hj
    rw [totalBlocks_nil] at hj
    omega
  | cons bv rest ih =>
    intro segIdx recid j hj hcdl hlt hsp hlen
    rw [totalBlocks_cons] at hj
    simp only [cpSegments, Bool.false_eq_true, if_false, List.nil_append]
    by_cases hjf : j < bv.bv_len / blksize
    · unfold callerBlockAddr
      rw [if_pos hjf]
      refine List.mem_append_left _ ?_
      rw [cpBlocks_events_eq]
      exact fillEvs_mem priv blksize blk_per_trk _ recid
        (bv.page_addr + bv.bv_offset) j hjf hcdl hlt hsp hlen
    · unfold callerBlockAddr
      rw [if_neg hjf]
      refine List.mem_append_right _ ?_
      have harith : recid + j = (recid + bv.bv_len / blksize) +
          (j - bv.bv_len / blksize) := by omega
      rw [harith] at hlt hsp hlen ⊢
      exact ih (segIdx + 1) (recid + bv.bv_len / blksize)
        (j - bv.bv_len / blksize) (by omega) hcdl hlt hsp hlen

/-- C10: when `dasd_eckd_build_cp` accepts a READ over a CDL volume
(with the copy-buffer pool disabled, so `dst` is the caller's buffer)
and block `j` of the range is a CDL special record shorter than the
block size, the build emits at build time a
`memset(dst + reclen, 0xe5, blksize - reclen)` filling the tail of the
caller's buffer for that block, so the caller never observes
uninitialized bytes in the unread remainder. -/
theorem build_cp_cdl_read_pad (clock : SyncClock) (ida : IdalOracle)
    (pcA : PageCacheAlloc) (priv : DasdEckdPrivate) (block : DasdBlock)
    (req : Request) (cqr : CqrModel) (j : Nat)
    (hok : (dasd_eckd_build_cp clock ida false pcA priv block req).result =
      .ok cqr)
    (hread : req.write = false)
    (hcdl : priv.uses_cdl = true)
    (hj : j < totalBlocks block.bp_block req.segments)
    (hlt : req.sector >>> block.s2b_shift + j <
      2 * recs_per_track priv.rdc_data 0 block.bp_block)
    (hsp : dasd_eckd_cdl_special (recs_per_track priv.rdc_data 0 block.bp_block)
      (req.sector >>> block.s2b_shift + j) = true)
    (hlen : dasd_eckd_cdl_reclen (req.sector >>> block.s2b_shift + j) <
      block.bp_block) :
    MemEvent.fill (callerBlockAddr block.bp_block req.segments j +
        dasd_eckd_cdl_reclen (req.sector >>> block.s2b_shift + j)) 0xe5
      (block.bp_block -
        dasd_eckd_cdl_reclen (req.sector >>> block.s2b_shift + j)) ∈
      (dasd_eckd_build_cp clock ida false pcA priv block req).events := by
  obtain ⟨-, -, -, hev⟩ :=
    build_cp_ok_shape clock ida false pcA priv block req cqr hok
  rw [hev, hread]
  exact cpSegments_fill_mem priv ida pcA _ block.bp_block _ _ req.segments 0
    (req.sector >>> block.s2b_shift) j hj hcdl hlt hsp hlen

/-- C10 witness: the one-block CDL read of record 0 (28-byte special
record, 512-byte blocks, caller buffer at 4096) emits the fill of the
484 trailing bytes with 0xe5 at address 4124. -/
theorem build_cp_cdl_read_pad_witness :
    MemEvent.fill 4124 0xe5 484 ∈
      (dasd_eckd_build_cp (Except.ok 0) (fun _ _ => false) false
        (fun _ => none)
        ⟨⟨0x3390, 0x3990, 100, 15, false⟩, true, 0, 0, false, 0, 1, []⟩
        ⟨512, 0⟩ ⟨0, 1, false, [⟨4096, 0, 512⟩]⟩).events := by
  rcases hres : (dasd_eckd_build_cp (Except.ok 0) (fun _ _ => false) false
      (fun _ => none)
      ⟨⟨0x3390, 0x3990, 100, 15, false⟩, true, 0, 0, false, 0, 1, []⟩
      ⟨512, 0⟩ ⟨0, 1, false, [⟨4096, 0, 512⟩]⟩).result with e | cqr
  · have hok : (dasd_eckd_build_cp (Except.ok 0) (fun _ _ => false) false
        (fun _ => none)
        ⟨⟨0x3390, 0x3990, 100, 15, false⟩, true, 0, 0, false, 0, 1, []⟩
        ⟨512, 0⟩ ⟨0, 1, false, [⟨4096, 0, 512⟩]⟩).result.isOk = true := by
      decide
    rw [hres] at hok
    exact absurd hok (by simp [Except.isOk, Except.toBool])
  · exact build_cp_cdl_read_pad (Except.ok 0) (fun _ _ => false)
      (fun _ => none)
      ⟨⟨0x3390, 0x3990, 100, 15, false⟩, true, 0, 0, false, 0, 1, []⟩
      ⟨512, 0⟩ ⟨0, 1, false, [⟨4096, 0, 512⟩]⟩ cqr 0 hres rfl rfl
      (by decide) (by decide) (by decide) (by decide)

/-- C4 counterexample: track 0's first three headers match the
compatible layout exactly (kl 4, dl 24/144/80), but the probed first
record of track 2 (`count_area[4]`) carries a key (kl 4), so on a
volume whose block size is not yet derived `end_analysis` reports
`-EMEDIUMTYPE` instead of classifying the volume as compatible. -/
theorem end_analysis_track2_counterexample :
    (∀ i, i < 3 →
      (([⟨0, 0, 1, 4, 24⟩, ⟨0, 0, 2, 4, 144⟩, ⟨0, 0, 3, 4, 80⟩,
         ⟨0, 0, 4, 0, 0⟩, ⟨2, 0, 1, 4, 4092⟩] : List EckdCount).getD i {}).kl = 4 ∧
      (([⟨0, 0, 1, 4, 24⟩, ⟨0, 0, 2, 4, 144⟩, ⟨0, 0, 3, 4, 80⟩,
         ⟨0, 0, 4, 0, 0⟩, ⟨2, 0, 1, 4, 4092⟩] : List EckdCount).getD i {}).dl =
        dasd_eckd_cdl_reclen i - 4) ∧
    dasd_eckd_end_analysis
      ⟨⟨0x3390, 0x3990, 100, 15, false⟩, false, 0, 0, false, 0, DASD_CQR_DONE,
       [⟨0, 0, 1, 4, 24⟩, ⟨0, 0, 2, 4, 144⟩, ⟨0, 0, 3, 4, 80⟩,
        ⟨0, 0, 4, 0, 0⟩, ⟨2, 0, 1, 4, 4092⟩]⟩ 0 = .error (-EMEDIUMTYPE) := by
  refine ⟨?_, by decide⟩
  intro i hi
  interval_cases i <;> exact ⟨rfl, rfl⟩

/-- C4 (amended): given the phase-1 analysis completed with status Done
and the volume's block size is not yet derived (`bp_block = 0`),
`end_analysis` classifies the volume as compatible disk layout exactly
when track 0's first three record headers have key length 4 and data
length `{28,148,84}[i] - 4` AND the probed first record of track 2 has
key length 0 and a data length that is a valid block size; it
classifies native Linux layout exactly when the compatible check fails,
the first five headers all have key length 0 and the data length of the
first header, and that length is a valid block size; in every other
case it reports `-EMEDIUMTYPE`. -/
theorem end_analysis_classification (priv : DasdEckdPrivate)
    (hdone : priv.init_cqr_status = DASD_CQR_DONE) :
    ((∃ r, dasd_eckd_end_analysis priv 0 = .ok r ∧ r.uses_cdl = true) ↔
      ((∀ i, i < 3 → (priv.count_area.getD i {}).kl = 4 ∧
          (priv.count_area.getD i {}).dl = dasd_eckd_cdl_reclen i - 4) ∧
       (priv.count_area.getD 4 {}).kl = 0 ∧
       dasd_check_blocksize (priv.count_area.getD 4 {}).dl = 0)) ∧
    ((∃ r, dasd_eckd_end_analysis priv 0 = .ok r ∧ r.uses_cdl = false) ↔
      (¬ (∀ i, i < 3 → (priv.count_area.getD i {}).kl = 4 ∧
            (priv.count_area.getD i {}).dl = dasd_eckd_cdl_reclen i - 4) ∧
       (∀ i, i < 5 → (priv.count_area.getD i {}).kl = 0 ∧
          (priv.count_area.getD i {}).dl = (priv.count_area.getD 0 {}).dl) ∧
       dasd_check_blocksize (priv.count_area.getD 0 {}).dl = 0)) ∧
    (dasd_eckd_end_analysis priv 0 = .error (-EMEDIUMTYPE) ↔
      (¬ ((∀ i, i < 3 → (priv.count_area.getD i {}).kl = 4 ∧
             (priv.count_area.getD i {}).dl = dasd_eckd_cdl_reclen i - 4) ∧
          (priv.count_area.getD 4 {}).kl = 0 ∧
          dasd_check_blocksize (priv.count_area.getD 4 {}).dl = 0) ∧
       ¬ (¬ (∀ i, i < 3 → (priv.count_area.getD i {}).kl = 4 ∧
               (priv.count_area.getD i {}).dl = dasd_eckd_cdl_reclen i - 4) ∧
          (∀ i, i < 5 → (priv.count_area.getD i {}).kl = 0 ∧
             (priv.count_area.getD i {}).dl = (priv.count_area.getD 0 {}).dl) ∧
          dasd_check_blocksize (priv.count_area.getD 0 {}).dl = 0))) := by
  have hb3 : ((List.range 3).all fun i =>
        ((priv.count_area.getD i {}).kl == 4) &&
        ((priv.count_area.getD i {}).dl == dasd_eckd_cdl_reclen i - 4)) = true ↔
      (∀ i, i < 3 → (priv.count_area.getD i {}).kl = 4 ∧
        (priv.count_area.getD i {}).dl = dasd_eckd_cdl_reclen i - 4) := by
    simp [List.all_eq_true, List.mem_range]
  have hb5 : ((List.range 5).all fun i =>
        ((priv.count_area.getD i {}).kl == 0) &&
        ((priv.count_area.getD i {}).dl == (priv.count_area.getD 0 {}).dl)) = true ↔
      (∀ i, i < 5 → (priv.count_area.getD i {}).kl = 0 ∧
        (priv.count_area.getD i {}).dl = (priv.count_area.getD 0 {}).dl) := by
    simp [List.all_eq_true, List.mem_range]
  unfold dasd_eckd_end_analysis
  rw [if_neg (by simp [hdone])]
  dsimp only
  by_cases hc : ((List.range 3).all fun i =>
      ((priv.count_area.getD i {}).kl == 4) &&
      ((priv.count_area.getD i {}).dl == dasd_eckd_cdl_reclen i - 4)) = true
  · have hcP := hb3.mp hc
    simp only [hc, eq_self_iff_true, if_true]
    by_cases hk : (priv.count_area.getD 4 {}).kl = 0 ∧
        dasd_check_blocksize (priv.count_area.getD 4 {}).dl = 0
    · rw [if_pos hk, if_neg (dasd_check_blocksize_ne_zero _ hk.2)]
      simp_all
    · rw [if_neg hk, if_pos rfl]
      simp_all
  · rw [Bool.not_eq_true] at hc
    have hcF : ¬ (∀ i, i < 3 → (priv.count_area.getD i {}).kl = 4 ∧
        (priv.count_area.getD i {}).dl = dasd_eckd_cdl_reclen i - 4) := by
      intro hP
      rw [hb3.mpr hP] at hc
      exact absurd hc (by simp)
    simp only [hc, Bool.false_eq_true, if_false]
    by_cases hu : ((List.range 5).all fun i =>
        ((priv.count_area.getD i {}).kl == 0) &&
        ((priv.count_area.getD i {}).dl == (priv.count_area.getD 0 {}).dl)) = true
    · have huP := hb5.mp hu
      simp only [hu, eq_self_iff_true, if_true]
      by_cases hchk : dasd_check_blocksize (priv.count_area.getD 0 {}).dl = 0
      · have h0k : (priv.count_area.getD 0 {}).kl = 0 := (huP 0 (by omega)).1
        rw [if_pos (And.intro h0k hchk),
            if_neg (dasd_check_blocksize_ne_zero _ hchk)]
        simp_all
      · have hnc : ¬ ((priv.count_area.getD 0 {}).kl = 0 ∧
            dasd_check_blocksize (priv.count_area.getD 0 {}).dl = 0) :=
          fun hcond => hchk hcond.2
        rw [if_neg hnc, if_pos rfl]
        simp_all
    · rw [Bool.not_eq_true] at hu
      have huF : ¬ (∀ i, i < 5 → (priv.count_area.getD i {}).kl = 0 ∧
          (priv.count_area.getD i {}).dl = (priv.count_area.getD 0 {}).dl) := by
        intro hP
        rw [hb5.mpr hP] at hu
        exact absurd hu (by simp)
      simp only [hu, Bool.false_eq_true, if_false]
      simp_all

/-- C4 witness: the spec's compatible-layout scenario (track 0 headers
24/144/80 with key length 4, track 2 record with key length 0 and a
4096-byte block) classifies as compatible disk layout. -/
theorem end_analysis_classification_witness :
    ∃ r, dasd_eckd_end_analysis
      ⟨⟨0x3390, 0x3990, 100, 15, false⟩, false, 0, 0, false, 0, DASD_CQR_DONE,
       [⟨0, 0, 1, 4, 24⟩, ⟨0, 0, 2, 4, 144⟩, ⟨0, 0, 3, 4, 80⟩,
        ⟨0, 0, 4, 0, 4096⟩, ⟨2, 0, 1, 0, 4096⟩]⟩ 0 = .ok r ∧
      r.uses_cdl = true :=
  (end_analysis_classification
    ⟨⟨0x3390, 0x3990, 100, 15, false⟩, false, 0, 0, false, 0, DASD_CQR_DONE,
     [⟨0, 0, 1, 4, 24⟩, ⟨0, 0, 2, 4, 144⟩, ⟨0, 0, 3, 4, 80⟩,
      ⟨0, 0, 4, 0, 4096⟩, ⟨2, 0, 1, 0, 4096⟩]⟩ rfl).1.mpr
    ⟨by intro i hi; interval_cases i <;> exact ⟨rfl, rfl⟩, rfl, by decide⟩

/-- C9: when the chosen start device already has
`DASD_ECKD_CHANQ_MAX_SIZE = 4` requests in flight,
`dasd_eckd_build_alias_cp` returns `-EBUSY` without allocating a
request, without changing the in-flight counter and without touching
the device's outstanding requests; below the cap, the outstanding
requests are also untouched and the counter's net effect is an
increment exactly when the inner build succeeds (it is incremented
before the inner build and decremented again when the inner build
fails). -/
theorem build_alias_cp_busy_cap (clock : SyncClock) (ida : IdalOracle)
    (pageCacheOn : Bool) (pcAlloc : PageCacheAlloc) (dev : AliasDevice)
    (block : DasdBlock) (req : Request) :
    (dev.priv.count ≥ DASD_ECKD_CHANQ_MAX_SIZE →
      (dasd_eckd_build_alias_cp clock ida pageCacheOn pcAlloc dev block
        req).result = .error (-EBUSY) ∧
      (dasd_eckd_build_alias_cp clock ida pageCacheOn pcAlloc dev block
        req).dev = dev ∧
      (dasd_eckd_build_alias_cp clock ida pageCacheOn pcAlloc dev block
        req).allocated = 0) ∧
    (dev.priv.count < DASD_ECKD_CHANQ_MAX_SIZE →
      (dasd_eckd_build_alias_cp clock ida pageCacheOn pcAlloc dev block
        req).dev.outstanding = dev.outstanding ∧
      (dasd_eckd_build_alias_cp clock ida pageCacheOn pcAlloc dev block
        req).dev.priv.count =
        (if (dasd_eckd_build_alias_cp clock ida pageCacheOn pcAlloc dev block
              req).result.isOk then dev.priv.count + 1 else dev.priv.count)) := by
  unfold dasd_eckd_build_alias_cp
  constructor
  · intro h
    rw [if_pos h]
    exact ⟨rfl, rfl, rfl⟩
  · intro h
    rw [if_neg (by omega)]
    rcases hor : (dasd_eckd_build_cp clock ida pageCacheOn pcAlloc
        { dev.priv with count := dev.priv.count + 1 } block req).result with e | cqr
    · simp [hor, Except.isOk, Except.toBool]
    · simp [hor, Except.isOk, Except.toBool]

/-- C9 witness: a device at the cap rejects with busy and is left
untouched; a device below the cap keeps its outstanding list. -/
theorem build_alias_cp_busy_cap_witness :
    ((dasd_eckd_build_alias_cp (Except.ok 0) (fun _ _ => false) false
        (fun _ => none)
        ⟨⟨⟨0x3390, 0x3990, 100, 15, false⟩, true, 0, 0, false, 4, 1, []⟩, []⟩
        ⟨512, 0⟩ ⟨0, 1, false, [⟨4096, 0, 512⟩]⟩).result = .error (-EBUSY) ∧
     (dasd_eckd_build_alias_cp (Except.ok 0) (fun _ _ => false) false
        (fun _ => none)
        ⟨⟨⟨0x3390, 0x3990, 100, 15, false⟩, true, 0, 0, false, 4, 1, []⟩, []⟩
        ⟨512, 0⟩ ⟨0, 1, false, [⟨4096, 0, 512⟩]⟩).dev =
       ⟨⟨⟨0x3390, 0x3990, 100, 15, false⟩, true, 0, 0, false, 4, 1, []⟩, []⟩ ∧
     (dasd_eckd_build_alias_cp (Except.ok 0) (fun _ _ => false) false
        (fun _ => none)
        ⟨⟨⟨0x3390, 0x3990, 100, 15, false⟩, true, 0, 0, false, 4, 1, []⟩, []⟩
        ⟨512, 0⟩ ⟨0, 1, false, [⟨4096, 0, 512⟩]⟩).allocated = 0) ∧
    ((dasd_eckd_build_alias_cp (Except.ok 0) (fun _ _ => false) false
        (fun _ => none)
        ⟨⟨⟨0x3390, 0x3990, 100, 15, false⟩, true, 0, 0, false, 0, 1, []⟩, []⟩
        ⟨512, 0⟩ ⟨0, 1, false, [⟨4096, 0, 512⟩]⟩).dev.outstanding = [] ∧
     (dasd_eckd_build_alias_cp (Except.ok 0) (fun _ _ => false) false
        (fun _ => none)
        ⟨⟨⟨0x3390, 0x3990, 100, 15, false⟩, true, 0, 0, false, 0, 1, []⟩, []⟩
        ⟨512, 0⟩ ⟨0, 1, false, [⟨4096, 0, 512⟩]⟩).dev.priv.count =
       (if (dasd_eckd_build_alias_cp (Except.ok 0) (fun _ _ => false) false
              (fun _ => none)
              ⟨⟨⟨0x3390, 0x3990, 100, 15, false⟩, true, 0, 0, false, 0, 1, []⟩, []⟩
              ⟨512, 0⟩ ⟨0, 1, false, [⟨4096, 0, 512⟩]⟩).result.isOk
        then 0 + 1 else 0)) :=
  ⟨(build_alias_cp_busy_cap (Except.ok 0) (fun _ _ => false) false
      (fun _ => none)
      ⟨⟨⟨0x3390, 0x3990, 100, 15, false⟩, true, 0, 0, false, 4, 1, []⟩, []⟩
      ⟨512, 0⟩ ⟨0, 1, false, [⟨4096, 0, 512⟩]⟩).1 (by decide),
   (build_alias_cp_busy_cap (Except.ok 0) (fun _ _ => false) false
      (fun _ => none)
      ⟨⟨⟨0x3390, 0x3990, 100, 15, false⟩, true, 0, 0, false, 0, 1, []⟩, []⟩
      ⟨512, 0⟩ ⟨0, 1, false, [⟨4096, 0, 512⟩]⟩).2 (by decide)⟩

end DasdEckd
